import Mathlib

/-!
Leveled logging, telemetry configuration and the telemetry exporter (package
`logging`), and the version 2 HTTP handlers of algod (package `v2`).

A shallow embedding of `logging/log.go`, `logging/telemetry.go`,
`logging/telemetryExporter.go` and of `daemon/algod/api/server/v2/handlers.go`
with `utils.go`.

* The logrus entry behind a logger is the log sink.  A logger method that
  reaches the sink is recorded as a `SinkCall`; a method returns the list of
  sink calls it made, in order.
* `loggerState` lives behind a pointer.  The embedding keeps the cells in a
  `Heap` and a `logger` holds the address of its cell.
* `runtime.Caller`, `debug.Stack`, the file system, the build channel and the
  functions of `telemetryConfig.go` are inputs (`Runtime`, `Env`); so are the
  operating system calls of the exporter (`ExporterEnv`) and the node, ledger and
  codec behind the handlers (`V2Handlers`).
* A handler call ends in the JSON answer it sends or in the run-time panic of a
  method call on a nil `error` (`Outcome`).
-/

namespace Logging

/-! ## Levels (log.go, lines 49-75) -/

/-- Mirror of `type Level uint32`; levels are only ever compared. -/
abbrev Level := Nat

def Panic : Level := 0
def Fatal : Level := 1
def Error : Level := 2
def Warn : Level := 3
def Info : Level := 4
def Debug : Level := 5

def stackPrefix : String := "[Stack]"

/-! ## Values, fields and the sink -/

/-- Mirror of `telemetryspec.MetricDetails`: a value with an `Identifier()`. -/
structure MetricDetails where
  Identifier : String
  body : String
deriving DecidableEq, Repr

/-- Values carried as `interface{}` in fields and arguments. -/
inductive Value where
  | str (s : String)
  | bool (b : Bool)
  | num (n : Int)
  | metrics (m : MetricDetails)
  | obj (repr : String)
deriving DecidableEq, Repr

/-- Mirror of `logrus.Fields`, a string-keyed map.  The newest binding of a key
comes first, and `List.lookup` reads the map. -/
abbrev Fields := List (String × Value)

/-- Mirror of logrus `Entry.WithFields`: the new fields override the old ones. -/
def WithFieldsEntry (data : Fields) (fields : Fields) : Fields := fields ++ data

/-- Mirror of logrus `Entry.WithField`. -/
def WithFieldEntry (data : Fields) (key : String) (value : Value) : Fields :=
  WithFieldsEntry data [(key, value)]

/-- Severity of a logrus entry method. -/
inductive SinkLevel where
  | panic | fatal | error | warn | info | debug
deriving DecidableEq, Repr

/-- The three shapes of a logrus entry method: `Info`, `Infoln`, `Infof`. -/
inductive Form where
  | plain | ln | fmt
deriving DecidableEq, Repr

/-- One call of a logrus entry method: the sink call. -/
structure SinkCall where
  level : SinkLevel
  form : Form
  data : Fields
  format : String
  args : List Value
deriving DecidableEq, Repr

/-! ## Runtime inputs -/

/-- What `runtime.Caller(2)` and `runtime.FuncForPC` report for a frame. -/
structure Frame where
  file : String
  line : Nat
  function : Option String
deriving DecidableEq, Repr

/-- The function whose frame `runtime.Caller(2)` sees from inside `source`. -/
inductive CallSite where
  | user
  | logMetrics
  | logTelemetry
deriving DecidableEq, Repr

/-- Mirror of the persisted record of telemetryCommon.go. -/
structure TelemetryConfig where
  Enable : Bool
  URI : String
  Name : String
  GUID : String
  MinLogLevel : Nat
  ReportHistoryLevel : Nat
  LogHistoryDepth : Nat
  FilePath : String
  ChainID : String
  SessionGUID : String
  UserName : String
  Password : String
deriving DecidableEq, Repr

/-- The Go zero value of `TelemetryConfig`. -/
def TelemetryConfig.zero : TelemetryConfig :=
  { Enable := false, URI := "", Name := "", GUID := "", MinLogLevel := 0,
    ReportHistoryLevel := 0, LogHistoryDepth := 0, FilePath := "", ChainID := "",
    SessionGUID := "", UserName := "", Password := "" }

/-- Inputs of the logger that come from the Go runtime, and the method
`TelemetryConfig.getInstanceName` of `telemetryConfig.go`, which is not part of
the sources at hand. -/
structure Runtime where
  caller : CallSite → Option Frame
  stack : String
  getInstanceName : TelemetryConfig → String

/-! ## Logger state and loggers (log.go, lines 167-176) -/

structure loggerState where
  telemetryEnabled : Bool
  loggingLevel : Level
  telemetryLevel : Level
deriving DecidableEq, Repr

/-- The cells holding `loggerState` values, by address. -/
abbrev Heap := Nat → loggerState

/-- Writes a cell. -/
def Heap.store (h : Heap) (p : Nat) (s : loggerState) : Heap :=
  fun q => if q = p then s else h q

/-- Mirror of `type logger struct`: the entry's fields and the pointer to the state. -/
structure logger where
  entry : Fields
  loggerState : Nat
deriving DecidableEq, Repr

/-- Mirror of `file[strings.LastIndex(file, "/")+1:]`. -/
def baseName (file : String) : String :=
  String.mk ((file.data.reverse.takeWhile (fun c => c != '/')).reverse)

/-- Mirror of `logger.source`, log.go lines 329-351. -/
def logger.source (l : logger) (rt : Runtime) (site : CallSite) : Fields :=
  let event := l.entry
  match rt.caller site with
  | none => event
  | some fr =>
    let event := WithFieldsEntry event
      [("file", Value.str (baseName fr.file)), ("line", Value.num fr.line)]
    match fr.function with
    | some name => WithFieldEntry event "function" (Value.str name)
    | none => event

/-- Mirror of `logger.With`. -/
def logger.With (l : logger) (key : String) (value : Value) : logger :=
  { entry := WithFieldEntry l.entry key value, loggerState := l.loggerState }

/-- Mirror of `logger.WithFields`. -/
def logger.WithFields (l : logger) (rt : Runtime) (site : CallSite) (fields : Fields) : logger :=
  { entry := WithFieldsEntry (l.source rt site) fields, loggerState := l.loggerState }

/-- Mirror of `NewLogger`: a fresh state cell at address `p`. -/
def NewLogger (h : Heap) (p : Nat) : logger × Heap :=
  ({ entry := [], loggerState := p },
   h.store p { telemetryEnabled := false, loggingLevel := Info, telemetryLevel := Info })

/-! ## Per-severity operations (log.go, lines 185-300) -/

def logger.Debug (l : logger) (h : Heap) (rt : Runtime) (args : List Value) : List SinkCall :=
  if (h l.loggerState).loggingLevel ≥ Logging.Debug then
    [⟨.debug, .plain, l.source rt .user, "", args⟩]
  else []

def logger.Debugln (l : logger) (h : Heap) (rt : Runtime) (args : List Value) : List SinkCall :=
  if (h l.loggerState).loggingLevel ≥ Logging.Debug then
    [⟨.debug, .ln, l.source rt .user, "", args⟩]
  else []

def logger.Debugf (l : logger) (h : Heap) (rt : Runtime) (format : String) (args : List Value) :
    List SinkCall :=
  if (h l.loggerState).loggingLevel ≥ Logging.Debug then
    [⟨.debug, .fmt, l.source rt .user, format, args⟩]
  else []

def logger.Info (l : logger) (h : Heap) (rt : Runtime) (args : List Value) : List SinkCall :=
  if (h l.loggerState).loggingLevel ≥ Logging.Info then
    [⟨.info, .plain, l.source rt .user, "", args⟩]
  else []

def logger.Infoln (l : logger) (h : Heap) (rt : Runtime) (args : List Value) : List SinkCall :=
  if (h l.loggerState).loggingLevel ≥ Logging.Info then
    [⟨.info, .ln, l.source rt .user, "", args⟩]
  else []

def logger.Infof (l : logger) (h : Heap) (rt : Runtime) (format : String) (args : List Value) :
    List SinkCall :=
  if (h l.loggerState).loggingLevel ≥ Logging.Info then
    [⟨.info, .fmt, l.source rt .user, format, args⟩]
  else []

def logger.Warn (l : logger) (h : Heap) (rt : Runtime) (args : List Value) : List SinkCall :=
  if (h l.loggerState).loggingLevel ≥ Logging.Warn then
    [⟨.warn, .plain, l.source rt .user, "", args⟩]
  else []

def logger.Warnln (l : logger) (h : Heap) (rt : Runtime) (args : List Value) : List SinkCall :=
  if (h l.loggerState).loggingLevel ≥ Logging.Warn then
    [⟨.warn, .ln, l.source rt .user, "", args⟩]
  else []

def logger.Warnf (l : logger) (h : Heap) (rt : Runtime) (format : String) (args : List Value) :
    List SinkCall :=
  if (h l.loggerState).loggingLevel ≥ Logging.Warn then
    [⟨.warn, .fmt, l.source rt .user, format, args⟩]
  else []

/-- The stack-trace entry emitted before every message of level Error and above:
`l.source().Errorln(stackPrefix, string(debug.Stack()))`. -/
def stackCall (l : logger) (rt : Runtime) : SinkCall :=
  ⟨.error, .ln, l.source rt .user, "", [Value.str stackPrefix, Value.str rt.stack]⟩

def logger.Error (l : logger) (h : Heap) (rt : Runtime) (args : List Value) : List SinkCall :=
  if (h l.loggerState).loggingLevel ≥ Logging.Error then
    [stackCall l rt, ⟨.error, .plain, l.source rt .user, "", args⟩]
  else []

def logger.Errorln (l : logger) (h : Heap) (rt : Runtime) (args : List Value) : List SinkCall :=
  if (h l.loggerState).loggingLevel ≥ Logging.Error then
    [stackCall l rt, ⟨.error, .ln, l.source rt .user, "", args⟩]
  else []

def logger.Errorf (l : logger) (h : Heap) (rt : Runtime) (format : String) (args : List Value) :
    List SinkCall :=
  if (h l.loggerState).loggingLevel ≥ Logging.Error then
    [stackCall l rt, ⟨.error, .fmt, l.source rt .user, format, args⟩]
  else []

def logger.Fatal (l : logger) (h : Heap) (rt : Runtime) (args : List Value) : List SinkCall :=
  if (h l.loggerState).loggingLevel ≥ Logging.Fatal then
    [stackCall l rt, ⟨.fatal, .plain, l.source rt .user, "", args⟩]
  else []

def logger.Fatalln (l : logger) (h : Heap) (rt : Runtime) (args : List Value) : List SinkCall :=
  if (h l.loggerState).loggingLevel ≥ Logging.Fatal then
    [stackCall l rt, ⟨.fatal, .ln, l.source rt .user, "", args⟩]
  else []

def logger.Fatalf (l : logger) (h : Heap) (rt : Runtime) (format : String) (args : List Value) :
    List SinkCall :=
  if (h l.loggerState).loggingLevel ≥ Logging.Fatal then
    [stackCall l rt, ⟨.fatal, .fmt, l.source rt .user, format, args⟩]
  else []

def logger.Panic (l : logger) (h : Heap) (rt : Runtime) (args : List Value) : List SinkCall :=
  if (h l.loggerState).loggingLevel ≥ Logging.Panic then
    [stackCall l rt, ⟨.panic, .plain, l.source rt .user, "", args⟩]
  else []

def logger.Panicln (l : logger) (h : Heap) (rt : Runtime) (args : List Value) : List SinkCall :=
  if (h l.loggerState).loggingLevel ≥ Logging.Panic then
    [stackCall l rt, ⟨.panic, .ln, l.source rt .user, "", args⟩]
  else []

def logger.Panicf (l : logger) (h : Heap) (rt : Runtime) (format : String) (args : List Value) :
    List SinkCall :=
  if (h l.loggerState).loggingLevel ≥ Logging.Panic then
    [stackCall l rt, ⟨.panic, .fmt, l.source rt .user, format, args⟩]
  else []

/-! ## State accessors (log.go, lines 309-319 and 378-384) -/

def logger.SetLevel (l : logger) (h : Heap) (lvl : Level) : Heap :=
  h.store l.loggerState { h l.loggerState with loggingLevel := lvl }

def logger.IsLevelEnabled (l : logger) (h : Heap) (level : Level) : Bool :=
  decide ((h l.loggerState).loggingLevel ≥ level)

def logger.SetTelemetryLevel (l : logger) (h : Heap) (lvl : Level) : Heap :=
  h.store l.loggerState { h l.loggerState with telemetryLevel := lvl }

def logger.EnableTelemetry (l : logger) (h : Heap) (enabled : Bool) : Heap :=
  h.store l.loggerState { h l.loggerState with telemetryEnabled := enabled }

def logger.GetTelemetryEnabled (l : logger) (h : Heap) : Bool :=
  (h l.loggerState).telemetryEnabled

/-! ## Dispatch over the eighteen log methods (used to state properties) -/

/-- The six levels a log call can have. -/
inductive Sev where
  | Panic | Fatal | Error | Warn | Info | Debug
deriving DecidableEq, Repr

/-- The `Level` constant of a severity. -/
def Sev.toLevel : Sev → Level
  | .Panic => Logging.Panic
  | .Fatal => Logging.Fatal
  | .Error => Logging.Error
  | .Warn => Logging.Warn
  | .Info => Logging.Info
  | .Debug => Logging.Debug

/-- The log call of severity `s` and shape `f` on logger `l`. -/
def logCall (s : Sev) (f : Form) (l : logger) (h : Heap) (rt : Runtime) (format : String)
    (args : List Value) : List SinkCall :=
  match s, f with
  | .Debug, .plain => l.Debug h rt args
  | .Debug, .ln => l.Debugln h rt args
  | .Debug, .fmt => l.Debugf h rt format args
  | .Info, .plain => l.Info h rt args
  | .Info, .ln => l.Infoln h rt args
  | .Info, .fmt => l.Infof h rt format args
  | .Warn, .plain => l.Warn h rt args
  | .Warn, .ln => l.Warnln h rt args
  | .Warn, .fmt => l.Warnf h rt format args
  | .Error, .plain => l.Error h rt args
  | .Error, .ln => l.Errorln h rt args
  | .Error, .fmt => l.Errorf h rt format args
  | .Fatal, .plain => l.Fatal h rt args
  | .Fatal, .ln => l.Fatalln h rt args
  | .Fatal, .fmt => l.Fatalf h rt format args
  | .Panic, .plain => l.Panic h rt args
  | .Panic, .ln => l.Panicln h rt args
  | .Panic, .fmt => l.Panicf h rt format args

/-- One step of deriving a logger: a call of `With` or of `WithFields`. -/
inductive Derivation where
  | With (key : String) (value : Value)
  | WithFields (rt : Runtime) (fields : Fields)

/-- The logger obtained from `l` by a sequence of `With` / `WithFields` calls. -/
def derive (l : logger) : List Derivation → logger
  | [] => l
  | .With key value :: ds => derive (l.With key value) ds
  | .WithFields rt fields :: ds => derive (l.WithFields rt .user fields) ds

/-! ## Telemetry emission (log.go lines 386-416, telemetry.go lines 120-155)

The package-level variable `telemetryConfig` is the argument `tc`. -/

def telemetryPrefix : String := "/"
def telemetrySeparator : String := "/"

def logger.GetTelemetrySession (_l : logger) (tc : TelemetryConfig) : String :=
  tc.SessionGUID

def logger.GetInstanceName (_l : logger) (rt : Runtime) (tc : TelemetryConfig) : String :=
  rt.getInstanceName tc

def logger.GetChainId (_l : logger) (tc : TelemetryConfig) : String :=
  tc.ChainID

/-- Mirror of `buildMessage`: the prefix, then the arguments joined by the separator. -/
def buildMessage (args : List String) : String :=
  telemetryPrefix ++ telemetrySeparator.intercalate args

/-- Mirror of `logTelemetry`; a nil `details` is `none`. -/
def logTelemetry (l : logger) (h : Heap) (tc : TelemetryConfig) (rt : Runtime) (message : String)
    (details : Option Value) : List SinkCall :=
  let l := match details with
    | some d => l.WithFields rt .logTelemetry [("details", d)]
    | none => l
  let entry := WithFieldsEntry l.entry
    [("telemetry", Value.bool (l.GetTelemetryEnabled h)),
     ("session", Value.str (l.GetTelemetrySession tc)),
     ("instanceName", Value.str (l.GetInstanceName rt tc)),
     ("chainID", Value.str (l.GetChainId tc))]
  [⟨.info, .plain, entry, "", [Value.str message]⟩]

/-- Mirror of `logMetrics`; a nil `metrics` is `none`. -/
def logMetrics (l : logger) (h : Heap) (tc : TelemetryConfig) (rt : Runtime) (category : String)
    (metrics : Option MetricDetails) (details : Option Value) : List SinkCall :=
  match metrics with
  | none => []
  | some m =>
    let l := l.WithFields rt .logMetrics [("metrics", Value.metrics m)]
    logTelemetry l h tc rt (buildMessage [category, m.Identifier]) details

/-- Mirror of `logEvent`. -/
def logEvent (l : logger) (h : Heap) (tc : TelemetryConfig) (rt : Runtime) (category : String)
    (identifier : String) (details : Option Value) : List SinkCall :=
  logTelemetry l h tc rt (buildMessage [category, identifier]) details

def logger.Metrics (l : logger) (h : Heap) (tc : TelemetryConfig) (rt : Runtime)
    (category : String) (metrics : Option MetricDetails) (details : Option Value) :
    List SinkCall :=
  if (h l.loggerState).telemetryEnabled then logMetrics l h tc rt category metrics details
  else []

def logger.EventWithDetails (l : logger) (h : Heap) (tc : TelemetryConfig) (rt : Runtime)
    (category : String) (identifier : String) (details : Option Value) : List SinkCall :=
  if (h l.loggerState).telemetryEnabled then logEvent l h tc rt category identifier details
  else []

def logger.Event (l : logger) (h : Heap) (tc : TelemetryConfig) (rt : Runtime)
    (category : String) (identifier : String) : List SinkCall :=
  l.EventWithDetails h tc rt category identifier none

/-! ## Telemetry configuration resolution (telemetry.go, lines 34-118) -/

/-- A non-nil Go `error`; `notExist` is what `os.IsNotExist` answers for it. -/
structure GoError where
  msg : String
  notExist : Bool
deriving DecidableEq, Repr

/-- Mirror of `os.IsNotExist`, which is false on a nil error. -/
def osIsNotExist (err : Option GoError) : Bool :=
  match err with
  | some e => e.notExist
  | none => false

/-- What the resolver takes from outside `telemetry.go`: the file system seen
through `LoadTelemetryConfig` and `Save`, `config.GetConfigFilePath`,
`filepath.Join`, the build channel, and the values a fresh config is made of. -/
structure Env where
  TelemetryConfigFilename : String
  filepathJoin : String → String → String
  load : String → TelemetryConfig × Option GoError
  globalPath : String → String × Option GoError
  save : TelemetryConfig → String → Option GoError
  Channel : String
  freshGUID : String
  freshSessionGUID : String
  defaults : TelemetryConfig

/-- An effect of the resolver on its surroundings. -/
inductive Effect where
  | load (path : String)
  | resolve (file : String)
  | save (path : String) (cfg : TelemetryConfig)
  | init (cfg : TelemetryConfig)
deriving DecidableEq, Repr

/-- The package-level `telemetryConfig` and the effects performed so far. -/
structure World where
  telemetryConfig : TelemetryConfig
  effects : List Effect
deriving DecidableEq, Repr

/-- Mirror of `initializeConfig`, log.go lines 94-96. -/
def initializeConfig (w : World) (cfg : TelemetryConfig) : World :=
  { telemetryConfig := cfg, effects := w.effects ++ [Effect.init cfg] }

/-- The call `LoadTelemetryConfig(path)`: both results, as in Go. -/
def LoadTelemetryConfig (env : Env) (w : World) (path : String) :
    (TelemetryConfig × Option GoError) × World :=
  (env.load path, { w with effects := w.effects ++ [Effect.load path] })

/-- The call `config.GetConfigFilePath(file)`. -/
def GetConfigFilePath (env : Env) (w : World) (file : String) :
    (String × Option GoError) × World :=
  (env.globalPath file, { w with effects := w.effects ++ [Effect.resolve file] })

/-- The call `cfg.Save(path)`. -/
def TelemetryConfig.Save (cfg : TelemetryConfig) (env : Env) (w : World) (path : String) :
    Option GoError × World :=
  (env.save cfg path, { w with effects := w.effects ++ [Effect.save path cfg] })

/-- Modelled from the spec: `createTelemetryConfig` lives in telemetryConfig.go,
which is not among the sources.  Section 4.3 step 3: a default in-memory config
with a fresh GUID, a fresh SessionGUID, `Enable=false` and conservative defaults. -/
def createTelemetryConfig (env : Env) : TelemetryConfig :=
  { env.defaults with
    Enable := false, GUID := env.freshGUID, SessionGUID := env.freshSessionGUID }

/-- Mirror of lines 58-63 and 109-114: the channel, `"dev"` when unspecified, then
`fmt.Sprintf("%s-%s", ch, genesisID)`. -/
def chainIDFor (env : Env) (genesisID : String) : String :=
  let ch := env.Channel
  let ch := if ch = "" then "dev" else ch
  ch ++ "-" ++ genesisID

/-- Lines 50-64 of `ReadTelemetryConfigOrDefault`. -/
def readTail (env : Env) (w : World) (genesisID : String) (cfg : TelemetryConfig)
    (err : Option GoError) : (TelemetryConfig × Option GoError) × World :=
  if err ≠ none then
    let cfg := createTelemetryConfig env
    if osIsNotExist err then
      (({ cfg with ChainID := chainIDFor env genesisID }, none), w)
    else
      ((cfg, err), w)
  else
    (({ cfg with ChainID := chainIDFor env genesisID }, err), w)

/-- Mirror of `ReadTelemetryConfigOrDefault`; a nil `dataDir` is `none`. -/
def ReadTelemetryConfigOrDefault (env : Env) (w : World) (dataDir : Option String)
    (genesisID : String) : (TelemetryConfig × Option GoError) × World :=
  let r :=
    match dataDir with
    | some d =>
      if d ≠ "" then
        LoadTelemetryConfig env w (env.filepathJoin d env.TelemetryConfigFilename)
      else ((TelemetryConfig.zero, none), w)
    | none => ((TelemetryConfig.zero, none), w)
  let cfg := r.1.1
  let err := r.1.2
  let w := r.2
  if err ≠ none ∧ osIsNotExist err = true then
    let p := GetConfigFilePath env w env.TelemetryConfigFilename
    if p.1.2 ≠ none then
      ((createTelemetryConfig env, p.1.2), p.2)
    else
      let r := LoadTelemetryConfig env p.2 p.1.1
      readTail env r.2 genesisID r.1.1 r.1.2
  else
    readTail env w genesisID cfg err

/-- Lines 98-117 of `EnsureTelemetryConfigCreated`. -/
def ensureTail (env : Env) (w : World) (genesisID : String) (configPath : String)
    (cfg : TelemetryConfig) (err : Option GoError) :
    (TelemetryConfig × Bool × Option GoError) × World :=
  if err ≠ none then
    let cfg := createTelemetryConfig env
    let cfg := { cfg with FilePath := configPath }
    let s := cfg.Save env w configPath
    let cfg := { cfg with ChainID := chainIDFor env genesisID }
    ((cfg, true, s.1), initializeConfig s.2 cfg)
  else
    let cfg := { cfg with ChainID := chainIDFor env genesisID }
    ((cfg, false, err), initializeConfig w cfg)

/-- Mirror of `EnsureTelemetryConfigCreated`; a nil `dataDir` is `none`. -/
def EnsureTelemetryConfigCreated (env : Env) (w : World) (dataDir : Option String)
    (genesisID : String) : (TelemetryConfig × Bool × Option GoError) × World :=
  let s : (String × TelemetryConfig × Option GoError) × World :=
    match dataDir with
    | some d =>
      if d ≠ "" then
        let configPath := env.filepathJoin d env.TelemetryConfigFilename
        let r := LoadTelemetryConfig env w configPath
        if r.1.2 ≠ none ∧ osIsNotExist r.1.2 = true then
          (("", r.1.1, r.1.2), r.2)
        else
          ((configPath, r.1.1, r.1.2), r.2)
      else (("", TelemetryConfig.zero, none), w)
    | none => (("", TelemetryConfig.zero, none), w)
  let configPath := s.1.1
  let cfg := s.1.2.1
  let err := s.1.2.2
  let w := s.2
  if configPath = "" then
    let p := GetConfigFilePath env w env.TelemetryConfigFilename
    if p.1.2 ≠ none then
      let cfg := createTelemetryConfig env
      ((cfg, true, p.1.2), initializeConfig p.2 cfg)
    else
      let r := LoadTelemetryConfig env p.2 p.1.1
      ensureTail env r.2 genesisID p.1.1 r.1.1 r.1.2
  else
    ensureTail env w genesisID configPath cfg err

/-- Mirror of `EnsureTelemetryConfig`. -/
def EnsureTelemetryConfig (env : Env) (w : World) (dataDir : Option String)
    (genesisID : String) : (TelemetryConfig × Option GoError) × World :=
  let r := EnsureTelemetryConfigCreated env w dataDir genesisID
  ((r.1.1, r.1.2.2), r.2)

/-! ## Concrete inputs -/

/-- A runtime in which `runtime.Caller` reports a frame of `node.go`. -/
def sampleRuntime : Runtime :=
  { caller := fun _ => some { file := "/src/node/node.go", line := 42, function := some "node.Start" },
    stack := "goroutine 1 [running]",
    getInstanceName := fun tc => tc.Name }

/-- A heap whose every cell has logging threshold `T` and telemetry flag `t`. -/
def sampleHeap (T : Level) (t : Bool) : Heap :=
  fun _ => { telemetryEnabled := t, loggingLevel := T, telemetryLevel := Info }

/-- A root logger without context fields, its state at address 0. -/
def sampleLogger : logger := { entry := [], loggerState := 0 }

/-- A resolved telemetry configuration used in examples. -/
def sampleConfig : TelemetryConfig :=
  { TelemetryConfig.zero with
    Name := "relay-1", GUID := "guid-1", SessionGUID := "session-1", ChainID := "dev-testgenesis" }

/-- The error of opening a file that is not there. -/
def notExistError : GoError := { msg := "open: no such file or directory", notExist := true }

/-- The error of decoding a malformed file. -/
def decodeError : GoError := { msg := "invalid character in config", notExist := false }

/-- The error of a global configuration directory that cannot be resolved. -/
def rootError : GoError := { msg := "cannot resolve global config root", notExist := false }

/-- The error of a write that is refused. -/
def writeError : GoError := { msg := "permission denied", notExist := false }

/-- An environment with no telemetry config file anywhere, an unset build channel,
a resolvable global directory and a disk that accepts writes. -/
def emptyDiskEnv : Env :=
  { TelemetryConfigFilename := "logging.config",
    filepathJoin := fun dir file => dir ++ "/" ++ file,
    load := fun _ => (TelemetryConfig.zero, some notExistError),
    globalPath := fun file => ("/home/algo/.algorand/" ++ file, none),
    save := fun _ _ => none,
    Channel := "",
    freshGUID := "guid-new",
    freshSessionGUID := "session-new",
    defaults := { TelemetryConfig.zero with
      MinLogLevel := 3, ReportHistoryLevel := 3, LogHistoryDepth := 100 } }

/-- As `emptyDiskEnv`, with a malformed file in the data directory `/data`. -/
def malformedEnv : Env :=
  { emptyDiskEnv with
    load := fun path =>
      if path = "/data/logging.config" then (TelemetryConfig.zero, some decodeError)
      else (TelemetryConfig.zero, some notExistError) }

/-- As `emptyDiskEnv`, with a global directory that cannot be resolved. -/
def noGlobalEnv : Env :=
  { emptyDiskEnv with globalPath := fun _ => ("", some rootError) }

/-- As `emptyDiskEnv`, with a well-formed file in the data directory `/data`. -/
def storedEnv : Env :=
  { emptyDiskEnv with
    load := fun path =>
      if path = "/data/logging.config" then
        ({ sampleConfig with FilePath := "/data/logging.config", ChainID := "", SessionGUID := "" },
          none)
      else (TelemetryConfig.zero, some notExistError) }

/-- The world at process start: no resolved config, no effect yet. -/
def startWorld : World := { telemetryConfig := TelemetryConfig.zero, effects := [] }

/-- The path of the last `LoadTelemetryConfig` call among some effects. -/
def lastLoad : List Effect → Option String
  | [] => none
  | e :: es =>
    match lastLoad es with
    | some p => some p
    | none =>
      match e with
      | Effect.load p => some p
      | _ => none

/-- Whether some `GetConfigFilePath` call among the effects failed. -/
def resolveFailed (env : Env) (es : List Effect) : Bool :=
  es.any fun e =>
    match e with
    | Effect.resolve file => decide ((env.globalPath file).2 ≠ none)
    | _ => false

/-- The `Save` calls among some effects: path and saved config, in order. -/
def saves (es : List Effect) : List (String × TelemetryConfig) :=
  es.filterMap fun e =>
    match e with
    | Effect.save path cfg => some (path, cfg)
    | _ => none

/-- The number of `GetConfigFilePath` calls among some effects. -/
def resolves (es : List Effect) : Nat :=
  (es.filter fun e =>
    match e with
    | Effect.resolve _ => true
    | _ => false).length

/-- The effects performed between the world `before` and the world `after`. -/
def newEffects (before after : World) : List Effect :=
  after.effects.drop before.effects.length

/-- The config path `EnsureTelemetryConfigCreated` settles on, following section 4.3
steps 1-2 of the design: the data-directory path when a data directory is given and
the load there did not fail with not-exist, otherwise the global path when it can
be resolved, otherwise none. -/
def settledPath (env : Env) (dataDir : Option String) : Option String :=
  let fromDir : Option String :=
    match dataDir with
    | some d =>
      if d ≠ "" ∧ env.filepathJoin d env.TelemetryConfigFilename ≠ "" ∧
          osIsNotExist (env.load (env.filepathJoin d env.TelemetryConfigFilename)).2 = false then
        some (env.filepathJoin d env.TelemetryConfigFilename)
      else none
    | none => none
  match fromDir with
  | some p => some p
  | none =>
    if (env.globalPath env.TelemetryConfigFilename).2 = none then
      some (env.globalPath env.TelemetryConfigFilename).1
    else none

/-- Modelled from the spec: the environment a later run of the process sees.
`LoadTelemetryConfig` on a path returns what a successful `Save` last wrote there
(section 8, round trip) and is unchanged on every other path; the later run draws
its own fresh `guid` and `session`. -/
def nextRunEnv (env : Env) (es : List Effect) (guid session : String) : Env :=
  { env with
    load := fun path =>
      match ((saves es).filter fun s => decide (env.save s.2 s.1 = none)).reverse.find?
          fun s => decide (s.1 = path) with
      | some s => (s.2, none)
      | none => env.load path,
    freshGUID := guid,
    freshSessionGUID := session }

/-- As `emptyDiskEnv`, with a well-formed file at the global location. -/
def globalFileEnv : Env :=
  { emptyDiskEnv with
    load := fun path =>
      if path = "/home/algo/.algorand/logging.config" then
        ({ sampleConfig with
            FilePath := "/home/algo/.algorand/logging.config", ChainID := "", SessionGUID := "" },
          none)
      else (TelemetryConfig.zero, some notExistError) }

/-- The second of two calls of `EnsureTelemetryConfigCreated` with the same data
directory: it runs in the world the first call left, on the environment the first
call's saves produced. -/
def secondEnsure (env : Env) (w : World) (dataDir : Option String)
    (genesisID1 genesisID2 guid session : String) :
    (TelemetryConfig × Bool × Option GoError) × World :=
  EnsureTelemetryConfigCreated
    (nextRunEnv env
      (newEffects w (EnsureTelemetryConfigCreated env w dataDir genesisID1).2) guid session)
    (EnsureTelemetryConfigCreated env w dataDir genesisID1).2 dataDir genesisID2

/-! ## Telemetry exporter (telemetryExporter.go) -/

def redirectTelemetryOutput : Bool := false

/-- Mirror of `type TelemetryExporter struct`; `process` is the handle, `none` when nil. -/
structure TelemetryExporter where
  exporterProcess : String
  dataDir : String
  process : Option Nat
  telemetryConfig : TelemetryConfig
deriving DecidableEq, Repr

/-- Mirror of `MakeTelemetryExporter`. -/
def MakeTelemetryExporter (executable : String) (dataDir : String)
    (telemetryConfig : TelemetryConfig) : TelemetryExporter :=
  { exporterProcess := executable, dataDir := dataDir, telemetryConfig := telemetryConfig,
    process := none }

/-- A call the exporter makes to the operating system. -/
inductive ExporterEffect where
  | openFile (filename : String)
  | write (filename : String) (content : String)
  | mkdir (dir : String)
  | startProcess (name : String) (args : List String) (inheritStreams : Bool)
  | watch (pid : Nat)
deriving DecidableEq, Repr

/-- The outcome of `os.StartProcess`: an error, or the handle of the child. -/
inductive StartResult where
  | failed (err : GoError)
  | started (pid : Nat)
deriving DecidableEq, Repr

/-- What the exporter takes from the operating system. -/
structure ExporterEnv where
  pathJoin : String → String → String
  openFile : String → Option GoError
  write : String → String → Option GoError
  startProcess : String → List String → StartResult

/-- Mirror of `TelemetryExporter.isRunning`. -/
def TelemetryExporter.isRunning (te : TelemetryExporter) : Bool :=
  te.process ≠ none

/-- The text `ensureConfig` writes: the value of its local `config`. -/
def TelemetryExporter.configText (te : TelemetryExporter) : String :=
  "filebeat.inputs:\n" ++
  "- type: log\n" ++
  "  enabled: true\n" ++
  "  paths:\n" ++
  "  - " ++ te.dataDir ++ "*.log\n" ++
  "output.elasticsearch:\n" ++
  "  protocol: \"https\"\n" ++
  "  hosts: [\"" ++ te.telemetryConfig.URI ++ "\"]\n" ++
  "  username: \"" ++ te.telemetryConfig.UserName ++ "\"\n" ++
  "  password: \"" ++ te.telemetryConfig.Password ++ "\"\n" ++
  "\n" ++
  "processors:\n" ++
  "  - add_host_metadata: ~\n" ++
  "  - add_cloud_metadata: ~\n" ++
  "  - add_log_history: ~\n"

/-- Mirror of `TelemetryExporter.ensureConfig`: open for writing, then write. -/
def TelemetryExporter.ensureConfig (te : TelemetryExporter) (env : ExporterEnv)
    (filename : String) : Option GoError × List ExporterEffect :=
  match env.openFile filename with
  | some err => (some err, [ExporterEffect.openFile filename])
  | none =>
    let config := te.configText
    (env.write filename config,
      [ExporterEffect.openFile filename, ExporterEffect.write filename config])

/-- Mirror of `TelemetryExporter.EnsureRunning`: the returned error, the exporter
afterwards, and the calls made.  The goroutine that waits for the child is the
effect `watch`; its step is `watcherStep`. -/
def TelemetryExporter.EnsureRunning (te : TelemetryExporter) (env : ExporterEnv) :
    Option GoError × TelemetryExporter × List ExporterEffect :=
  if !te.isRunning then
    let configFile := env.pathJoin te.dataDir "telemetry.yml"
    let c := te.ensureConfig env configFile
    if c.1 ≠ none then
      (c.1, te, c.2)
    else
      let te := { te with process := none }
      let telemDir := env.pathJoin te.dataDir "telem"
      let args := [te.exporterProcess, "-c", configFile, "--path.home", telemDir]
      match env.startProcess te.exporterProcess args with
      | StartResult.failed err =>
        (some err, { te with process := none },
          c.2 ++ [ExporterEffect.mkdir telemDir,
            ExporterEffect.startProcess te.exporterProcess args redirectTelemetryOutput])
      | StartResult.started pid =>
        (none, { te with process := some pid },
          c.2 ++ [ExporterEffect.mkdir telemDir,
            ExporterEffect.startProcess te.exporterProcess args redirectTelemetryOutput,
            ExporterEffect.watch pid])
  else
    (none, te, [])

/-- The step of the watcher goroutine once the child has exited: `(*proc) = nil`. -/
def TelemetryExporter.watcherStep (te : TelemetryExporter) : TelemetryExporter :=
  { te with process := none }

/-- The `os.StartProcess` calls among some effects. -/
def spawns (es : List ExporterEffect) : List ExporterEffect :=
  es.filter fun e =>
    match e with
    | ExporterEffect.startProcess _ _ _ => true
    | _ => false

/-- The attempts to open the config file for writing among some effects. -/
def configOpens (es : List ExporterEffect) : List ExporterEffect :=
  es.filter fun e =>
    match e with
    | ExporterEffect.openFile _ => true
    | _ => false

/-- An operating system on which every call succeeds; the child gets pid 4242. -/
def healthyOS : ExporterEnv :=
  { pathJoin := fun dir file => dir ++ "/" ++ file,
    openFile := fun _ => none,
    write := fun _ _ => none,
    startProcess := fun _ _ => StartResult.started 4242 }

/-- An operating system on which the data directory is read-only. -/
def readOnlyOS : ExporterEnv :=
  { healthyOS with openFile := fun _ => some writeError }

/-- An operating system on which the config file opens but the write fails. -/
def fullDiskOS : ExporterEnv :=
  { healthyOS with write := fun _ _ => some writeError }

/-- An operating system on which the exporter binary cannot be started. -/
def noBinaryOS : ExporterEnv :=
  { healthyOS with startProcess := fun _ _ => StartResult.failed notExistError }

/-- An exporter that is not running. -/
def sampleExporter : TelemetryExporter :=
  MakeTelemetryExporter "/usr/bin/filebeat" "/data" sampleConfig

end Logging

/-! ## HTTP handlers (daemon/algod/api/server/v2: handlers.go, utils.go) -/

namespace V2

open Logging

/-- Mirror of `http.StatusOK` and the other status codes the handlers use. -/
def StatusOK : Nat := 200
def StatusBadRequest : Nat := 400
def StatusNotFound : Nat := 404
def StatusInternalServerError : Nat := 500

/-- The two values of `codec.Handle` the handlers choose between. -/
inductive Handle where
  | JSONHandle
  | CodecHandle
deriving DecidableEq, Repr

/-- Mirror of `basics.Address`: 32 bytes. -/
abbrev Address := List Nat

/-- Mirror of `transactions.Transaction`, reduced to what the handlers read: the
value of `ID()` and the remaining content. -/
structure Transaction where
  ID : String
  content : String
deriving DecidableEq, Repr

structure SignedTxn where
  Txn : Transaction
  Sig : String
deriving DecidableEq, Repr

/-- Mirror of `transactions.SignedTxnWithAD`: a signed transaction and its apply data. -/
structure SignedTxnWithAD where
  Txn : Transaction
  Sig : String
  ApplyData : String
deriving DecidableEq, Repr

/-- Mirror of `node.TxnWithStatus`, reduced to the fields read here. -/
structure TxnWithStatus where
  Txn : SignedTxn
  ConfirmedRound : Nat
  PoolError : String
deriving DecidableEq, Repr

/-- Mirror of `generated.NodeStatusResponse`. -/
structure NodeStatusResponse where
  LastRound : Nat
  LastVersion : String
  NextVersion : String
  NextVersionRound : Nat
  NextVersionSupported : Bool
  TimeSinceLastRound : Nat
  CatchupTime : Nat
  StoppedAtUnsupportedRound : Bool
deriving DecidableEq, Repr

/-- Mirror of `generated.AssetHolding`. -/
structure AssetHolding where
  Amount : Nat
  AssetId : Nat
  Creator : String
  IsFrozen : Bool
deriving DecidableEq, Repr

/-- Mirror of `generated.AccountResponse`, without `CreatedAssets` and
`Participation`, whose construction makes no call that can fail. -/
structure AccountResponse where
  Round : Nat
  Address : String
  Amount : Nat
  PendingRewards : Nat
  AmountWithoutPendingRewards : Nat
  Rewards : Nat
  Status : String
  RewardBase : Nat
  Assets : List AssetHolding
deriving DecidableEq, Repr

/-- The JSON document a handler answers with. -/
inductive Body where
  | error (msg : String)
  | block (encoded : String)
  | status (s : NodeStatusResponse)
  | account (a : AccountResponse)
  | pending (TopTransactions : List String) (TotalTransactions : Nat)
deriving DecidableEq, Repr

/-- How a handler call ends: `ctx.JSON(code, body)`, or the run-time panic of
calling `Error()` on a nil `error`. -/
inductive Outcome where
  | json (code : Nat) (body : Body)
  | nilErrorPanic
deriving DecidableEq, Repr

/-- What a handler call did: the sink calls of its logger and how it ended. -/
structure HandlerResult where
  logs : List SinkCall
  outcome : Outcome
deriving DecidableEq, Repr

/-- Mirror of `basics.AccountData`, reduced to the fields `AccountInformation` reads
for the modelled part of its answer; `Assets` lists asset id, amount and frozen flag. -/
structure AccountData where
  MicroAlgos : Nat
  RewardedMicroAlgos : Nat
  Status : String
  RewardsBase : Nat
  Assets : List (Nat × Nat × Bool)
deriving DecidableEq, Repr

/-- Mirror of the fields of `bookkeeping.BlockHeader` read by `WaitForBlock`. -/
structure BlockHeader where
  NextProtocol : String
  NextProtocolSwitchOn : Nat
deriving DecidableEq, Repr

/-- Which case of the `select` in `WaitForBlock` fires. -/
inductive SelectCase where
  | shutdown
  | timeout
  | ledgerWait
deriving DecidableEq, Repr

/-- Mirror of `V2Handlers` with everything the handlers call: the logger `Log` with
the heap and runtime it works on, the node and its ledger, the packages `basics`,
`config`, `codec` and `strings`, and the message constants of `errors.go`, which
is not among the sources. -/
structure V2Handlers where
  Log : logger
  heap : Heap
  rt : Runtime
  toLower : String → String
  codecEncodeBlock : Handle → String → String × Option GoError
  codecEncodeTxn : Handle → SignedTxn → String × Option GoError
  UnmarshalChecksumAddress : String → Address × Option GoError
  addrString : Address → String
  OSubA : Nat → Nat → Nat × Bool
  Latest : Nat
  Lookup : Nat → Address → AccountData × Option GoError
  LookupWithoutRewards : Nat → Address → AccountData × Option GoError
  GetAssetCreator : Nat → Address × Option GoError
  BlockHdr : Nat → BlockHeader × Option GoError
  BlockCert : Nat → String × Option GoError
  consensusSupported : String → Bool
  selectCase : SelectCase
  Status : NodeStatusResponse × Option GoError
  GetPendingTxnsFromPool : List SignedTxn × Option GoError
  MatchAddress : Transaction → Address → Bool
  errFailedLookingUpLedger : String
  errInternalFailure : String
  errFailedRetrievingNodeStatus : String
  errFailedToParseAddress : String

/-- The value `logger.Info(err)` receives: the error, or nil. -/
def errorValue (err : Option GoError) : Value :=
  match err with
  | some e => Value.str e.msg
  | none => Value.obj "<nil>"

/-- The evaluation of `ctx.JSON(code, generated.Error{Error: err.Error()})`. -/
def errorJSON (code : Nat) (err : Option GoError) : Outcome :=
  match err with
  | some e => Outcome.json code (Body.error e.msg)
  | none => Outcome.nilErrorPanic

/-- Mirror of `returnErrorLogInternal`, handlers.go lines 32-35. -/
def returnErrorLogInternal (v2 : V2Handlers) (code : Nat) (err : Option GoError)
    (internal : String) : HandlerResult :=
  { logs := v2.Log.Info v2.heap v2.rt [Value.str internal], outcome := errorJSON code err }

/-- Mirror of `returnError`, handlers.go lines 37-40. -/
def returnError (v2 : V2Handlers) (code : Nat) (err : Option GoError) : HandlerResult :=
  { logs := v2.Log.Info v2.heap v2.rt [errorValue err], outcome := errorJSON code err }

/-- Mirror of `errors.New`. -/
def errorsNew (msg : String) : Option GoError :=
  some { msg := msg, notExist := false }

/-- The answer `ctx.JSON(code, body)` of a handler that logged nothing. -/
def respond (code : Nat) (body : Body) : HandlerResult :=
  { logs := [], outcome := Outcome.json code body }

/-- Mirror of `getCodecHandle` (handlers.go lines 398-414, the same text as utils.go
lines 109-125); the result of `fmt.Sprintf` in the last branch is dropped. -/
def getCodecHandle (toLower : String → String) (formatPtr : Option String) :
    Handle × Option GoError :=
  let format :=
    match formatPtr with
    | some f => toLower f
    | none => "json"
  let handle := Handle.JSONHandle
  let handle :=
    if format = "json" then Handle.JSONHandle
    else if format = "msgpack" ∨ format = "msgp" then Handle.CodecHandle
    else handle
  (handle, none)

/-- Mirror of `encode`: the encoder's output, or `""` and a wrapped error. -/
def encode (codecEncode : String × Option GoError) : String × Option GoError :=
  match codecEncode.2 with
  | some e => ("", some { msg := "failed to encode object: " ++ e.msg, notExist := false })
  | none => (codecEncode.1, none)

/-- Mirror of `GetBlock`, handlers.go lines 191-214. -/
def V2Handlers.GetBlock (v2 : V2Handlers) (round : Nat) (format : Option String) :
    HandlerResult :=
  let h := getCodecHandle v2.toLower format
  if h.2 ≠ none then returnError v2 StatusBadRequest h.2
  else
    let b := v2.BlockCert round
    if b.2 ≠ none then returnError v2 StatusInternalServerError b.2
    else
      let encoded := encode (v2.codecEncodeBlock h.1 b.1)
      if encoded.2 ≠ none then returnError v2 StatusInternalServerError encoded.2
      else respond StatusOK (Body.block encoded.1)

/-- Mirror of `GetStatus`, handlers.go lines 236-254. -/
def V2Handlers.GetStatus (v2 : V2Handlers) : HandlerResult :=
  let s := v2.Status
  if s.2 ≠ none then
    returnError v2 StatusInternalServerError (errorsNew v2.errFailedRetrievingNodeStatus)
  else respond StatusOK (Body.status s.1)

/-- Mirror of `WaitForBlock`, handlers.go lines 258-286; `round + 1` is `uint64`. -/
def V2Handlers.WaitForBlock (v2 : V2Handlers) (round : Nat) : HandlerResult :=
  let r := v2.BlockHdr v2.Latest
  let latestBlkHdr := r.1
  let err := r.2
  if err ≠ none then returnError v2 StatusInternalServerError err
  else if latestBlkHdr.NextProtocol ≠ "" ∧
      v2.consensusSupported latestBlkHdr.NextProtocol = false ∧
      latestBlkHdr.NextProtocolSwitchOn ≤ (round + 1) % 2 ^ 64 then
    returnError v2 StatusBadRequest err
  else
    match v2.selectCase with
    | SelectCase.shutdown => returnError v2 StatusInternalServerError err
    | SelectCase.timeout => v2.GetStatus
    | SelectCase.ledgerWait => v2.GetStatus

/-- The loop of `AccountInformation` over `record.Assets`, lines 110-133. -/
def V2Handlers.assetHoldings (v2 : V2Handlers) (assets : List (Nat × Nat × Bool)) :
    List AssetHolding :=
  assets.map fun a =>
    let c := v2.GetAssetCreator a.1
    let creator := if c.2 = none then v2.addrString c.1 else ""
    { Amount := a.2.1, AssetId := a.1, Creator := creator, IsFrozen := a.2.2 }

/-- Mirror of `AccountInformation`, handlers.go lines 86-187. -/
def V2Handlers.AccountInformation (v2 : V2Handlers) (address : String) : HandlerResult :=
  let a := v2.UnmarshalChecksumAddress address
  let addr := a.1
  let err := a.2
  if err ≠ none then returnError v2 StatusBadRequest err
  else
    let lastRound := v2.Latest
    let r := v2.Lookup lastRound addr
    let record := r.1
    let err := r.2
    if err ≠ none then returnError v2 StatusInternalServerError err
    else
      let r2 := v2.LookupWithoutRewards lastRound addr
      let recordWithoutPendingRewards := r2.1
      let err := r2.2
      if err ≠ none then
        returnErrorLogInternal v2 StatusInternalServerError err v2.errFailedLookingUpLedger
      else
        let amount := record.MicroAlgos
        let amountWithoutPendingRewards := recordWithoutPendingRewards.MicroAlgos
        let sub := v2.OSubA amount amountWithoutPendingRewards
        let pendingRewards := sub.1
        let overflowed := sub.2
        if overflowed then
          returnErrorLogInternal v2 StatusInternalServerError err v2.errInternalFailure
        else
          respond StatusOK (Body.account
            { Round := lastRound,
              Address := v2.addrString addr,
              Amount := amount,
              PendingRewards := pendingRewards,
              AmountWithoutPendingRewards := amountWithoutPendingRewards,
              Rewards := record.RewardedMicroAlgos,
              Status := record.Status,
              RewardBase := record.RewardsBase,
              Assets := v2.assetHoldings record.Assets })

/-- The loop of `computeAssetIndexInPayset`: the index of the first entry of the
payset with the given ID counted from `idx`, or `-1`. -/
def paysetOffset (id : String) : List SignedTxnWithAD → Nat → Int
  | [], _ => -1
  | stxnib :: rest, idx =>
    if id = stxnib.Txn.ID then (idx : Int) else paysetOffset id rest (idx + 1)

/-- Mirror of `computeAssetIndexInPayset` (handlers.go lines 343-361, the same text
as utils.go lines 54-72); a nil result is `none`, the arithmetic is `uint64`, and
the length of a slice converts to `uint64` unchanged. -/
def computeAssetIndexInPayset (tx : TxnWithStatus) (txnCounter : Nat)
    (payset : List SignedTxnWithAD) : Option Nat :=
  let offset := paysetOffset tx.Txn.Txn.ID payset 0
  if offset < 0 then none
  else
    some ((((txnCounter % 2 ^ 64 + 2 ^ 64 - payset.length % 2 ^ 64) % 2 ^ 64
      + offset.toNat % 2 ^ 64) % 2 ^ 64 + 1) % 2 ^ 64)

/-- The loop of `getPendingTransactions`, lines 507-525: the encodings gathered, or
the error of the encoding that failed. -/
def V2Handlers.pendingLoop (v2 : V2Handlers) (handle : Handle) (max : Option Nat)
    (addrPtr : Option Address) :
    List SignedTxn → List String → List String × Option GoError
  | [], encodedTxns => (encodedTxns, none)
  | txn :: rest, encodedTxns =>
    if max.any (fun m => decide (encodedTxns.length ≥ m)) then (encodedTxns, none)
    else if addrPtr.any (fun addr => !v2.MatchAddress txn.Txn addr) then
      v2.pendingLoop handle max addrPtr rest encodedTxns
    else
      let e := encode (v2.codecEncodeTxn handle txn)
      if e.2 ≠ none then (encodedTxns, e.2)
      else v2.pendingLoop handle max addrPtr rest (encodedTxns ++ [e.1])

/-- Mirror of `getPendingTransactions`, handlers.go lines 479-531. -/
def V2Handlers.getPendingTransactions (v2 : V2Handlers) (max : Option Nat)
    (format : Option String) (addrFilter : Option String) : HandlerResult :=
  let parsed : Option Address × Bool :=
    match addrFilter with
    | some f =>
      let a := v2.UnmarshalChecksumAddress f
      if a.2 ≠ none then (none, true) else (some a.1, false)
    | none => (none, false)
  if parsed.2 then returnError v2 StatusBadRequest (errorsNew v2.errFailedToParseAddress)
  else
    let addrPtr := parsed.1
    let p := v2.GetPendingTxnsFromPool
    if p.2 ≠ none then returnError v2 StatusInternalServerError p.2
    else
      let h := getCodecHandle v2.toLower format
      if h.2 ≠ none then returnError v2 StatusBadRequest h.2
      else
        let l := v2.pendingLoop h.1 max addrPtr p.1 []
        if l.2 ≠ none then returnError v2 StatusInternalServerError l.2
        else respond StatusOK (Body.pending l.1 p.1.length)

/-- Whether a pending transaction passes the optional address filter. -/
def V2Handlers.matchesFilter (v2 : V2Handlers) (addrPtr : Option Address) (txn : SignedTxn) :
    Bool :=
  match addrPtr with
  | some addr => v2.MatchAddress txn.Txn addr
  | none => true

/-- The first `max` elements of a list, all of them when `max` is absent. -/
def takeMax (max : Option Nat) (l : List SignedTxn) : List SignedTxn :=
  match max with
  | some m => l.take (min m l.length)
  | none => l

/-! ### Concrete nodes -/

/-- Three pending transactions. -/
def samplePool : List SignedTxn :=
  [{ Txn := { ID := "TX-A", content := "pay alice" }, Sig := "s1" },
   { Txn := { ID := "TX-B", content := "pay bob" }, Sig := "s2" },
   { Txn := { ID := "TX-C", content := "pay alice again" }, Sig := "s3" }]

/-- A node that answers every call: the latest round is 100, no protocol upgrade is
scheduled, the wait ends with the ledger reaching the round. -/
def healthyNode : V2Handlers :=
  { Log := sampleLogger,
    heap := sampleHeap Logging.Info false,
    rt := sampleRuntime,
    toLower := String.toLower,
    codecEncodeBlock := fun _ b => (b, none),
    codecEncodeTxn := fun _ t => (t.Txn.ID, none),
    UnmarshalChecksumAddress := fun a => (a.toList.map Char.toNat, none),
    addrString := fun a => String.mk (a.map Char.ofNat),
    OSubA := fun a b => ((a + 2 ^ 64 - b) % 2 ^ 64, decide (a < b)),
    Latest := 100,
    Lookup := fun _ _ =>
      ({ MicroAlgos := 1000, RewardedMicroAlgos := 20, Status := "Offline", RewardsBase := 3,
         Assets := [] }, none),
    LookupWithoutRewards := fun _ _ =>
      ({ MicroAlgos := 990, RewardedMicroAlgos := 20, Status := "Offline", RewardsBase := 3,
         Assets := [] }, none),
    GetAssetCreator := fun _ => ([], none),
    BlockHdr := fun _ => ({ NextProtocol := "", NextProtocolSwitchOn := 0 }, none),
    BlockCert := fun _ => ("block", none),
    consensusSupported := fun _ => true,
    selectCase := SelectCase.ledgerWait,
    Status :=
      ({ LastRound := 101, LastVersion := "v1", NextVersion := "v1", NextVersionRound := 102,
         NextVersionSupported := true, TimeSinceLastRound := 0, CatchupTime := 0,
         StoppedAtUnsupportedRound := false }, none),
    GetPendingTxnsFromPool := (samplePool, none),
    MatchAddress := fun t _ => t.content != "pay bob",
    errFailedLookingUpLedger := "failed to retrieve information from the ledger",
    errInternalFailure := "internal failure",
    errFailedRetrievingNodeStatus := "failed retrieving node status",
    errFailedToParseAddress := "failed to parse the address" }

/-- A node whose latest block schedules an unsupported protocol at round 101. -/
def stalledNode : V2Handlers :=
  { healthyNode with
    BlockHdr := fun _ => ({ NextProtocol := "future", NextProtocolSwitchOn := 101 }, none),
    consensusSupported := fun _ => false }

/-- A node that is shutting down while the request waits. -/
def shuttingDownNode : V2Handlers :=
  { healthyNode with selectCase := SelectCase.shutdown }

/-- A node whose ledger reports less with pending rewards than without them. -/
def overdrawnNode : V2Handlers :=
  { healthyNode with
    Lookup := fun _ _ =>
      ({ MicroAlgos := 5, RewardedMicroAlgos := 0, Status := "Offline", RewardsBase := 3,
         Assets := [] }, none) }

/-- A confirmed transaction with ID `TX-B`. -/
def sampleTx : TxnWithStatus :=
  { Txn := { Txn := { ID := "TX-B", content := "create asset" }, Sig := "s2" },
    ConfirmedRound := 7, PoolError := "" }

/-- The payset of the block that confirmed `sampleTx`, at position 1 of 3. -/
def samplePayset : List SignedTxnWithAD :=
  [{ Txn := { ID := "TX-A", content := "pay" }, Sig := "s1", ApplyData := "" },
   { Txn := { ID := "TX-B", content := "create asset" }, Sig := "s2", ApplyData := "" },
   { Txn := { ID := "TX-C", content := "pay" }, Sig := "s3", ApplyData := "" }]

end V2

namespace Logging

/-! ## Severity gate -/

/-- Reading a cell that was just written. -/
theorem Heap.store_same (h : Heap) (p : Nat) (s : loggerState) : h.store p s p = s := by
  simp [Heap.store]

/-- Deriving a logger never changes the state pointer. -/
theorem derive_loggerState (ds : List Derivation) (l : logger) :
    (derive l ds).loggerState = l.loggerState := by
  induction ds generalizing l with
  | nil => rfl
  | cons d ds ih =>
    cases d with
    | With key value => simpa [derive, logger.With] using ih (l.With key value)
    | WithFields rt fields =>
      simpa [derive, logger.WithFields] using ih (l.WithFields rt .user fields)

/-- A log call is forwarded exactly when the threshold is at least its level. -/
theorem logCall_ne_nil_iff (s : Sev) (f : Form) (l : logger) (h : Heap) (rt : Runtime)
    (format : String) (args : List Value) :
    logCall s f l h rt format args ≠ [] ↔ (h l.loggerState).loggingLevel ≥ s.toLevel := by
  cases s <;> cases f <;>
    simp [logCall, Sev.toLevel, logger.Debug, logger.Debugln, logger.Debugf, logger.Info,
      logger.Infoln, logger.Infof, logger.Warn, logger.Warnln, logger.Warnf, logger.Error,
      logger.Errorln, logger.Errorf, logger.Fatal, logger.Fatalln, logger.Fatalf, logger.Panic,
      logger.Panicln, logger.Panicf, Logging.Debug, Logging.Info, Logging.Warn, Logging.Error,
      Logging.Fatal, Logging.Panic] <;> exact Nat.pos_iff_ne_zero.symm

/-- C1: for every logger state (threshold `T = loggingLevel`) and every level `L`
among Panic, Fatal, Error, Warn, Info, Debug, a log call at level `L` in any of its
three shapes makes a sink call if and only if `T >= L`, it makes no sink call at
all if and only if `T < L`, and `IsLevelEnabled(L)` is that same boolean. -/
theorem log_forwarded_iff_threshold_ge (s : Sev) (f : Form) (l : logger) (h : Heap)
    (rt : Runtime) (format : String) (args : List Value) :
    (logCall s f l h rt format args ≠ [] ↔ (h l.loggerState).loggingLevel ≥ s.toLevel) ∧
    (logCall s f l h rt format args = [] ↔ (h l.loggerState).loggingLevel < s.toLevel) ∧
    l.IsLevelEnabled h s.toLevel = decide ((h l.loggerState).loggingLevel ≥ s.toLevel) ∧
    (l.IsLevelEnabled h s.toLevel = true ↔ logCall s f l h rt format args ≠ []) := by
  have key := logCall_ne_nil_iff s f l h rt format args
  refine ⟨key, ?_, rfl, ?_⟩
  · constructor
    · intro h0
      by_contra h1
      exact (key.mpr (not_lt.mp h1)) h0
    · intro h0
      by_contra h1
      exact absurd (key.mp h1) (not_le.mpr h0)
  · rw [key]; simp [logger.IsLevelEnabled]

/-- C2 (as stated, refuted): with the threshold set to Panic, a valid level, an
Error call and a Fatal call make no sink call. -/
theorem error_and_fatal_dropped_at_panic_threshold :
    logCall .Error .plain sampleLogger (sampleHeap Panic false) sampleRuntime ""
        [Value.str "disk full"] = [] ∧
    logCall .Fatal .plain sampleLogger (sampleHeap Panic false) sampleRuntime ""
        [Value.str "disk full"] = [] := by
  constructor <;> rfl

/-- C2 (amended): for every threshold, a Panic call in any shape is forwarded to the
sink; a Fatal call is forwarded whenever the threshold is at least Fatal; and an
Error call is forwarded exactly when the threshold is at least Error. -/
theorem severe_levels_forwarded (f : Form) (l : logger) (h : Heap) (rt : Runtime)
    (format : String) (args : List Value) :
    logCall .Panic f l h rt format args ≠ [] ∧
    ((h l.loggerState).loggingLevel ≥ Fatal → logCall .Fatal f l h rt format args ≠ []) ∧
    (logCall .Error f l h rt format args ≠ [] ↔ (h l.loggerState).loggingLevel ≥ Error) := by
  refine ⟨?_, ?_, ?_⟩
  · exact (logCall_ne_nil_iff .Panic f l h rt format args).mpr (Nat.zero_le _)
  · intro hT
    exact (logCall_ne_nil_iff .Fatal f l h rt format args).mpr hT
  · exact logCall_ne_nil_iff .Error f l h rt format args

/-- C2 (amended), at threshold Fatal: Panic and Fatal calls reach the sink, an Error
call does not. -/
theorem severe_levels_forwarded_witness :
    logCall .Panic .ln sampleLogger (sampleHeap Fatal false) sampleRuntime "" [] ≠ [] ∧
    logCall .Fatal .ln sampleLogger (sampleHeap Fatal false) sampleRuntime "" [] ≠ [] ∧
    ¬ (logCall .Error .ln sampleLogger (sampleHeap Fatal false) sampleRuntime "" [] ≠ []) :=
  have t := severe_levels_forwarded .ln sampleLogger (sampleHeap Fatal false) sampleRuntime "" []
  ⟨t.1, t.2.1 (by decide), fun hne => absurd (t.2.2.mp hne) (by decide)⟩

/-! ## Shared logger state -/

/-- C3: every logger derived from a root by `With` / `WithFields` calls holds the
root's state pointer.  After `SetLevel`, `SetTelemetryLevel` or `EnableTelemetry` on
any logger `a` derived from the root, every logger `c` derived from the same root
(the root itself when the derivation is empty) sees the new value: `IsLevelEnabled`,
the filtering of log calls, `GetTelemetryEnabled`, the gating of `Event` and the
stored telemetry level all answer from the value just written. -/
theorem derived_loggers_share_state (root : logger) (ds es : List Derivation) (h : Heap)
    (lvl L : Level) (b : Bool) (s : Sev) (f : Form) (rt : Runtime) (tc : TelemetryConfig)
    (format category identifier : String) (args : List Value) :
    (derive root ds).loggerState = root.loggerState ∧
    (derive root es).IsLevelEnabled ((derive root ds).SetLevel h lvl) L = decide (lvl ≥ L) ∧
    (logCall s f (derive root es) ((derive root ds).SetLevel h lvl) rt format args ≠ [] ↔
      lvl ≥ s.toLevel) ∧
    (derive root es).GetTelemetryEnabled ((derive root ds).EnableTelemetry h b) = b ∧
    ((derive root es).Event ((derive root ds).EnableTelemetry h b) tc rt category
      identifier ≠ [] ↔ b = true) ∧
    (((derive root ds).SetTelemetryLevel h lvl) (derive root es).loggerState).telemetryLevel
      = lvl := by
  have hd := derive_loggerState ds root
  have he := derive_loggerState es root
  refine ⟨hd, ?_, ?_, ?_, ?_, ?_⟩
  · simp [logger.IsLevelEnabled, logger.SetLevel, hd, he, Heap.store_same]
  · rw [logCall_ne_nil_iff]
    simp [logger.SetLevel, hd, he, Heap.store_same]
  · simp [logger.GetTelemetryEnabled, logger.EnableTelemetry, hd, he, Heap.store_same]
  · cases b <;>
      simp [logger.Event, logger.EventWithDetails, logger.EnableTelemetry, hd, he,
        Heap.store_same, logEvent, logTelemetry]
  · simp [logger.SetTelemetryLevel, hd, he, Heap.store_same]

/-! ## Telemetry gating -/

/-- The telemetry record path makes exactly one sink call. -/
theorem logTelemetry_length (l : logger) (h : Heap) (tc : TelemetryConfig) (rt : Runtime)
    (message : String) (details : Option Value) :
    (logTelemetry l h tc rt message details).length = 1 := by
  simp [logTelemetry]

/-- C4: `Event` and `EventWithDetails` make exactly one sink call when
`telemetryEnabled` is true and none when it is false; `Metrics` makes exactly one
when `telemetryEnabled` is true and the metrics argument is non-nil and none
otherwise, so `Metrics(cat, nil, details)` is a no-op; and changing
`loggingLevel` or `telemetryLevel` does not change these counts. -/
theorem telemetry_gated_by_enabled_flag (l : logger) (h : Heap) (tc : TelemetryConfig)
    (rt : Runtime) (category identifier : String) (metrics : Option MetricDetails)
    (details : Option Value) (ll tl : Level) :
    (l.Event h tc rt category identifier).length
      = (if (h l.loggerState).telemetryEnabled = true then 1 else 0) ∧
    (l.EventWithDetails h tc rt category identifier details).length
      = (if (h l.loggerState).telemetryEnabled = true then 1 else 0) ∧
    (l.Metrics h tc rt category metrics details).length
      = (if (h l.loggerState).telemetryEnabled = true ∧ metrics ≠ none then 1 else 0) ∧
    l.Metrics h tc rt category none details = [] ∧
    (l.Event (l.SetTelemetryLevel (l.SetLevel h ll) tl) tc rt category identifier).length
      = (l.Event h tc rt category identifier).length ∧
    (l.EventWithDetails (l.SetTelemetryLevel (l.SetLevel h ll) tl) tc rt category identifier
        details).length
      = (l.EventWithDetails h tc rt category identifier details).length ∧
    (l.Metrics (l.SetTelemetryLevel (l.SetLevel h ll) tl) tc rt category metrics
        details).length
      = (l.Metrics h tc rt category metrics details).length := by
  have hs : ((l.SetTelemetryLevel (l.SetLevel h ll) tl) l.loggerState).telemetryEnabled
      = (h l.loggerState).telemetryEnabled := by
    simp [logger.SetTelemetryLevel, logger.SetLevel, Heap.store_same]
  have hm : ∀ (l2 : logger) (h2 : Heap),
      (logMetrics l2 h2 tc rt category metrics details).length
        = (if metrics ≠ none then 1 else 0) := by
    intro l2 h2
    cases metrics <;> simp [logMetrics, logTelemetry_length]
  refine ⟨?_, ?_, ?_, ?_, ?_, ?_, ?_⟩
  · cases ht : (h l.loggerState).telemetryEnabled <;>
      simp [logger.Event, logger.EventWithDetails, logEvent, logTelemetry_length, ht]
  · cases ht : (h l.loggerState).telemetryEnabled <;>
      simp [logger.EventWithDetails, logEvent, logTelemetry_length, ht]
  · cases ht : (h l.loggerState).telemetryEnabled <;> simp [logger.Metrics, hm, ht]
  · cases ht : (h l.loggerState).telemetryEnabled <;> simp [logger.Metrics, logMetrics, ht]
  · cases ht : (h l.loggerState).telemetryEnabled <;>
      simp [logger.Event, logger.EventWithDetails, logEvent, logTelemetry_length, ht, hs]
  · cases ht : (h l.loggerState).telemetryEnabled <;>
      simp [logger.EventWithDetails, logEvent, logTelemetry_length, ht, hs]
  · cases ht : (h l.loggerState).telemetryEnabled <;> simp [logger.Metrics, hm, ht, hs]

/-! ## Telemetry records -/

/-- The prefix and separator around a category and an identifier. -/
theorem buildMessage_pair (a b : String) : buildMessage [a, b] = "/" ++ a ++ "/" ++ b := by
  simp [buildMessage, telemetryPrefix, telemetrySeparator, String.intercalate,
    String.intercalate.go, String.append_assoc]

/-- Looking a key up skips a binding of another key. -/
theorem lookup_cons_ne (k a : String) (v : Value) (es : Fields) (hk : k ≠ a) :
    List.lookup k ((a, v) :: es) = List.lookup k es := by
  have hb : (k == a) = false := by simpa using hk
  simp [List.lookup, hb]

/-- The caller metadata added by `source` touches only `file`, `line`, `function`. -/
theorem source_lookup (l : logger) (rt : Runtime) (site : CallSite) (k : String)
    (h1 : k ≠ "file") (h2 : k ≠ "line") (h3 : k ≠ "function") :
    (l.source rt site).lookup k = l.entry.lookup k := by
  unfold logger.source
  cases rt.caller site with
  | none => rfl
  | some fr =>
    cases hf : fr.function <;>
      simp [WithFieldsEntry, WithFieldEntry, lookup_cons_ne, h1, h2, h3, hf]

/-- The sink call made by the telemetry record path. -/
theorem logTelemetry_shape (l : logger) (h : Heap) (tc : TelemetryConfig) (rt : Runtime)
    (message : String) (details : Option Value) :
    ∃ data : Fields,
      logTelemetry l h tc rt message details
        = [⟨.info, .plain, data, "", [Value.str message]⟩] ∧
      data.lookup "telemetry" = some (Value.bool ((h l.loggerState).telemetryEnabled)) ∧
      data.lookup "session" = some (Value.str tc.SessionGUID) ∧
      data.lookup "instanceName" = some (Value.str (rt.getInstanceName tc)) ∧
      data.lookup "chainID" = some (Value.str tc.ChainID) ∧
      data.lookup "details"
        = (match details with
           | some d => some d
           | none => l.entry.lookup "details") ∧
      ∀ k : String, k ≠ "telemetry" → k ≠ "session" → k ≠ "instanceName" → k ≠ "chainID" →
        k ≠ "details" → k ≠ "file" → k ≠ "line" → k ≠ "function" →
        data.lookup k = l.entry.lookup k := by
  cases details with
  | none =>
    refine ⟨_, rfl, ?_, ?_, ?_, ?_, ?_, ?_⟩
    · simp [WithFieldsEntry, List.lookup, logger.GetTelemetryEnabled]
    · simp [WithFieldsEntry, List.lookup, logger.GetTelemetrySession]
    · simp [WithFieldsEntry, List.lookup, logger.GetInstanceName]
    · simp [WithFieldsEntry, List.lookup, logger.GetChainId]
    · simp [WithFieldsEntry, List.lookup]
    · intro k k1 k2 k3 k4 _ _ _ _
      simp [WithFieldsEntry, lookup_cons_ne, k1, k2, k3, k4]
  | some d =>
    refine ⟨_, rfl, ?_, ?_, ?_, ?_, ?_, ?_⟩
    · simp [WithFieldsEntry, List.lookup, logger.GetTelemetryEnabled, logger.WithFields]
    · simp [WithFieldsEntry, List.lookup, logger.GetTelemetrySession]
    · simp [WithFieldsEntry, List.lookup, logger.GetInstanceName]
    · simp [WithFieldsEntry, List.lookup, logger.GetChainId]
    · simp [WithFieldsEntry, List.lookup, logger.WithFields]
    · intro k k1 k2 k3 k4 k5 k6 k7 k8
      simp [WithFieldsEntry, logger.WithFields, lookup_cons_ne, k1, k2, k3, k4, k5]
      exact source_lookup l rt .logTelemetry k k6 k7 k8

/-- C5 (as stated, refuted): on a logger derived with `With("details", x)` and with
telemetry enabled, `EventWithDetails` called with nil details makes a sink call
that carries a `details` field, the one of the logger's context. -/
theorem event_with_nil_details_carries_context_details :
    (sampleHeap Info true
      (sampleLogger.With "details" (Value.str "from context")).loggerState).telemetryEnabled
      = true ∧
    ((sampleLogger.With "details" (Value.str "from context")).EventWithDetails
        (sampleHeap Info true) sampleConfig sampleRuntime "ApplicationState" "Startup"
        none).map (fun c => c.data.lookup "details")
      = [some (Value.str "from context")] := by
  constructor <;> rfl

/-- C5 (amended): with telemetry enabled, `EventWithDetails(category, identifier,
details)` makes one sink call at Info severity with message
`"/" + category + "/" + identifier` whose fields carry `telemetry` (the enabled
flag), `session` (the SessionGUID of the process-wide config), `instanceName` and
`chainID`; a non-nil `details` is attached as the field `details`, and with nil
`details` nothing is attached, the field `details` being left as the logger's own
context has it, so on a logger whose context has no `details` field the record
carries one if and only if `details` is non-nil.  `Event(category, identifier)`
produces the same sink calls as `EventWithDetails(category, identifier, nil)`.
`Metrics` uses the message `"/" + category + "/" + metrics.Identifier()` and
attaches the metrics value as the field `metrics`. -/
theorem telemetry_record_contents (l : logger) (h : Heap) (tc : TelemetryConfig)
    (rt : Runtime) (category identifier : String) (details : Option Value)
    (m : MetricDetails) (hen : (h l.loggerState).telemetryEnabled = true) :
    (∃ data : Fields,
      l.EventWithDetails h tc rt category identifier details
        = [⟨.info, .plain, data, "", [Value.str ("/" ++ category ++ "/" ++ identifier)]⟩] ∧
      data.lookup "telemetry" = some (Value.bool true) ∧
      data.lookup "session" = some (Value.str tc.SessionGUID) ∧
      data.lookup "instanceName" = some (Value.str (rt.getInstanceName tc)) ∧
      data.lookup "chainID" = some (Value.str tc.ChainID) ∧
      data.lookup "details"
        = (match details with
           | some d => some d
           | none => l.entry.lookup "details") ∧
      (l.entry.lookup "details" = none →
        ((data.lookup "details").isSome = true ↔ details ≠ none))) ∧
    l.Event h tc rt category identifier
      = l.EventWithDetails h tc rt category identifier none ∧
    (∃ data : Fields,
      l.Metrics h tc rt category (some m) details
        = [⟨.info, .plain, data, "",
            [Value.str ("/" ++ category ++ "/" ++ m.Identifier)]⟩] ∧
      data.lookup "metrics" = some (Value.metrics m) ∧
      data.lookup "telemetry" = some (Value.bool true) ∧
      data.lookup "session" = some (Value.str tc.SessionGUID) ∧
      data.lookup "instanceName" = some (Value.str (rt.getInstanceName tc)) ∧
      data.lookup "chainID" = some (Value.str tc.ChainID)) := by
  refine ⟨?_, rfl, ?_⟩
  · obtain ⟨data, hcall, h1, h2, h3, h4, h5, _⟩ :=
      logTelemetry_shape l h tc rt (buildMessage [category, identifier]) details
    refine ⟨data, ?_, ?_, h2, h3, h4, h5, ?_⟩
    · rw [buildMessage_pair] at hcall
      simp [logger.EventWithDetails, logEvent, hen, hcall, buildMessage_pair]
    · rw [h1, hen]
    · intro hctx
      rw [h5]
      cases details <;> simp [hctx]
  · obtain ⟨data, hcall, h1, h2, h3, h4, _, h6⟩ :=
      logTelemetry_shape (l.WithFields rt .logMetrics [("metrics", Value.metrics m)]) h tc rt
        (buildMessage [category, m.Identifier]) details
    refine ⟨data, ?_, ?_, ?_, h2, h3, h4⟩
    · rw [buildMessage_pair] at hcall
      simp [logger.Metrics, logMetrics, hen, hcall, buildMessage_pair]
    · rw [h6 "metrics" (by decide) (by decide) (by decide) (by decide) (by decide)
        (by decide) (by decide) (by decide)]
      simp [logger.WithFields, WithFieldsEntry, List.lookup]
    · rw [h1]
      simp [logger.WithFields, hen]

/-- C5 (amended) at a concrete logger: the startup event of an enabled logger. -/
theorem telemetry_record_contents_witness :
    (sampleHeap Info true sampleLogger.loggerState).telemetryEnabled = true ∧
    ∃ data : Fields,
      sampleLogger.EventWithDetails (sampleHeap Info true) sampleConfig sampleRuntime
          "ApplicationState" "Startup" (some (Value.obj "startup details"))
        = [⟨.info, .plain, data, "", [Value.str "/ApplicationState/Startup"]⟩] ∧
      data.lookup "session" = some (Value.str "session-1") ∧
      data.lookup "details" = some (Value.obj "startup details") := by
  refine ⟨rfl, ?_⟩
  obtain ⟨data, hcall, _, h2, _, _, h5, _⟩ :=
    (telemetry_record_contents sampleLogger (sampleHeap Info true) sampleConfig sampleRuntime
      "ApplicationState" "Startup" (some (Value.obj "startup details"))
      { Identifier := "RoundTiming", body := "" } rfl).1
  exact ⟨data, by simpa using hcall, h2, h5⟩

/-! ## Configuration resolution -/

/-- Without a data directory the read-only resolver attempts no load at all. -/
theorem read_without_dataDir (env : Env) (w : World) (genesisID : String) :
    ReadTelemetryConfigOrDefault env w none genesisID
      = (({ TelemetryConfig.zero with ChainID := chainIDFor env genesisID }, none), w) ∧
    ReadTelemetryConfigOrDefault env w (some "") genesisID
      = (({ TelemetryConfig.zero with ChainID := chainIDFor env genesisID }, none), w) := by
  constructor <;> simp [ReadTelemetryConfigOrDefault, readTail, osIsNotExist]

/-- C6 (evaluation at the failing input): with a nil data directory
`ReadTelemetryConfigOrDefault` performs no load and no `createTelemetryConfig`; it
returns the zero-value config with only `ChainID` set (empty GUID and SessionGUID)
and a nil error. -/
theorem read_nil_dataDir_returns_zero_value :
    ReadTelemetryConfigOrDefault emptyDiskEnv startWorld none "testgenesis"
      = (({ TelemetryConfig.zero with ChainID := "dev-testgenesis" }, none), startWorld) ∧
    (ReadTelemetryConfigOrDefault emptyDiskEnv startWorld none "testgenesis").1.1
      ≠ { createTelemetryConfig emptyDiskEnv with ChainID := "dev-testgenesis" } ∧
    (ReadTelemetryConfigOrDefault emptyDiskEnv startWorld none "testgenesis").1.1.SessionGUID
      = "" := by
  refine ⟨?_, ?_, ?_⟩
  · rfl
  · decide
  · rfl

/-- C9: on every return path of `EnsureTelemetryConfigCreated` the package-level
`telemetryConfig` after the call is the config the call returns, the last effect
of the call is that `initializeConfig`, and `GetTelemetrySession` / `GetChainId`
of any logger then report the returned config's SessionGUID and ChainID. -/
theorem ensure_initializes_process_config (env : Env) (w : World) (dataDir : Option String)
    (genesisID : String) (l : logger) :
    (EnsureTelemetryConfigCreated env w dataDir genesisID).2.telemetryConfig
      = (EnsureTelemetryConfigCreated env w dataDir genesisID).1.1 ∧
    (EnsureTelemetryConfigCreated env w dataDir genesisID).2.effects.getLast?
      = some (Effect.init (EnsureTelemetryConfigCreated env w dataDir genesisID).1.1) ∧
    l.GetTelemetrySession (EnsureTelemetryConfigCreated env w dataDir genesisID).2.telemetryConfig
      = (EnsureTelemetryConfigCreated env w dataDir genesisID).1.1.SessionGUID ∧
    l.GetChainId (EnsureTelemetryConfigCreated env w dataDir genesisID).2.telemetryConfig
      = (EnsureTelemetryConfigCreated env w dataDir genesisID).1.1.ChainID := by
  have key : (EnsureTelemetryConfigCreated env w dataDir genesisID).2.telemetryConfig
        = (EnsureTelemetryConfigCreated env w dataDir genesisID).1.1 ∧
      (EnsureTelemetryConfigCreated env w dataDir genesisID).2.effects.getLast?
        = some (Effect.init (EnsureTelemetryConfigCreated env w dataDir genesisID).1.1) := by
    unfold EnsureTelemetryConfigCreated ensureTail
    dsimp only
    split_ifs <;> simp [initializeConfig]
  refine ⟨key.1, key.2, ?_, ?_⟩
  · simp [logger.GetTelemetrySession, key.1]
  · simp [logger.GetChainId, key.1]

/-- Dropping a prefix of known length leaves the rest. -/
theorem drop_length_append (a b : List Effect) : (a ++ b).drop a.length = b := by
  induction a with
  | nil => rfl
  | cons x xs ih => simp

/-- C7 (as stated, refuted): the data-directory file is absent and the global
config path cannot be resolved.  The last load attempted failed with a not-exist
error, yet the returned error is not nil. -/
theorem read_resolution_failure_returns_error :
    lastLoad (newEffects startWorld
        (ReadTelemetryConfigOrDefault noGlobalEnv startWorld (some "/data") "testgenesis").2)
      = some "/data/logging.config" ∧
    osIsNotExist (noGlobalEnv.load "/data/logging.config").2 = true ∧
    (ReadTelemetryConfigOrDefault noGlobalEnv startWorld (some "/data") "testgenesis").1
      = (createTelemetryConfig noGlobalEnv, some rootError) := by
  refine ⟨?_, ?_, ?_⟩ <;> rfl

/-- The read-only resolver on a non-empty data directory, path by path. -/
theorem read_with_dataDir_cases (env : Env) (w : World) (d genesisID : String) (hd : d ≠ "") :
    (∀ e, (env.load (env.filepathJoin d env.TelemetryConfigFilename)).2 = some e →
      e.notExist = false →
      ReadTelemetryConfigOrDefault env w (some d) genesisID
        = ((createTelemetryConfig env, some e),
           { w with effects := w.effects ++
              [Effect.load (env.filepathJoin d env.TelemetryConfigFilename)] })) ∧
    ((env.load (env.filepathJoin d env.TelemetryConfigFilename)).2 = none →
      ReadTelemetryConfigOrDefault env w (some d) genesisID
        = (({ (env.load (env.filepathJoin d env.TelemetryConfigFilename)).1 with
                ChainID := chainIDFor env genesisID }, none),
           { w with effects := w.effects ++
              [Effect.load (env.filepathJoin d env.TelemetryConfigFilename)] })) ∧
    (osIsNotExist (env.load (env.filepathJoin d env.TelemetryConfigFilename)).2 = true →
      (∀ e, (env.globalPath env.TelemetryConfigFilename).2 = some e →
        ReadTelemetryConfigOrDefault env w (some d) genesisID
          = ((createTelemetryConfig env, some e),
             { w with effects := w.effects ++
                [Effect.load (env.filepathJoin d env.TelemetryConfigFilename),
                 Effect.resolve env.TelemetryConfigFilename] })) ∧
      ((env.globalPath env.TelemetryConfigFilename).2 = none →
        (ReadTelemetryConfigOrDefault env w (some d) genesisID).2
          = { w with effects := w.effects ++
                [Effect.load (env.filepathJoin d env.TelemetryConfigFilename),
                 Effect.resolve env.TelemetryConfigFilename,
                 Effect.load (env.globalPath env.TelemetryConfigFilename).1] } ∧
        (∀ e, (env.load (env.globalPath env.TelemetryConfigFilename).1).2 = some e →
          e.notExist = false →
          (ReadTelemetryConfigOrDefault env w (some d) genesisID).1
            = (createTelemetryConfig env, some e)) ∧
        (osIsNotExist (env.load (env.globalPath env.TelemetryConfigFilename).1).2 = true →
          (ReadTelemetryConfigOrDefault env w (some d) genesisID).1
            = ({ createTelemetryConfig env with ChainID := chainIDFor env genesisID },
               none)) ∧
        ((env.load (env.globalPath env.TelemetryConfigFilename).1).2 = none →
          (ReadTelemetryConfigOrDefault env w (some d) genesisID).1
            = ({ (env.load (env.globalPath env.TelemetryConfigFilename).1).1 with
                   ChainID := chainIDFor env genesisID }, none)))) := by
  refine ⟨?_, ?_, ?_⟩
  · intro e he hne
    simp [ReadTelemetryConfigOrDefault, readTail, LoadTelemetryConfig, osIsNotExist, hd, he, hne]
  · intro he
    simp [ReadTelemetryConfigOrDefault, readTail, LoadTelemetryConfig, osIsNotExist, hd, he]
  · intro h1
    cases he : (env.load (env.filepathJoin d env.TelemetryConfigFilename)).2 with
    | none => simp [osIsNotExist, he] at h1
    | some e1 =>
      have hne : e1.notExist = true := by simpa [osIsNotExist, he] using h1
      refine ⟨?_, ?_⟩
      · intro e hg
        simp [ReadTelemetryConfigOrDefault, LoadTelemetryConfig, GetConfigFilePath,
          osIsNotExist, hd, he, hne, hg]
      · intro hg
        refine ⟨?_, ?_, ?_, ?_⟩
        · simp [ReadTelemetryConfigOrDefault, LoadTelemetryConfig, GetConfigFilePath,
            osIsNotExist, hd, he, hne, hg, readTail]
          split_ifs <;> simp
        · intro e h2 hne2
          simp [ReadTelemetryConfigOrDefault, LoadTelemetryConfig, GetConfigFilePath,
            osIsNotExist, hd, he, hne, hg, readTail, h2, hne2]
        · intro h2
          cases h3 : (env.load (env.globalPath env.TelemetryConfigFilename).1).2 with
          | none => simp [osIsNotExist, h3] at h2
          | some e2 =>
            have hne2 : e2.notExist = true := by simpa [osIsNotExist, h3] using h2
            simp [ReadTelemetryConfigOrDefault, LoadTelemetryConfig, GetConfigFilePath,
              osIsNotExist, hd, he, hne, hg, readTail, h3, hne2]
        · intro h2
          simp [ReadTelemetryConfigOrDefault, LoadTelemetryConfig, GetConfigFilePath,
            osIsNotExist, hd, he, hne, hg, readTail, h2]

/-- C7 (amended): for a non-empty data directory, `ReadTelemetryConfigOrDefault`
returns a nil error exactly when no global-path resolution failed and the last
load it attempted succeeded or failed with a not-exist error.  When the
data-directory file and the global file are both absent it returns the default
of `createTelemetryConfig` (`Enable=false`, fresh SessionGUID) with the ChainID
set and no error.  When the last attempted load fails for another reason it
returns the default config together with that error, and when the global path
cannot be resolved it returns the default config together with the resolution
error. -/
theorem read_error_nil_iff (env : Env) (w : World) (d genesisID : String) (hd : d ≠ "") :
    ((ReadTelemetryConfigOrDefault env w (some d) genesisID).1.2 = none ↔
      resolveFailed env
          (newEffects w (ReadTelemetryConfigOrDefault env w (some d) genesisID).2) = false ∧
      ∃ p, lastLoad (newEffects w (ReadTelemetryConfigOrDefault env w (some d) genesisID).2)
          = some p ∧
        ((env.load p).2 = none ∨ osIsNotExist (env.load p).2 = true)) ∧
    (osIsNotExist (env.load (env.filepathJoin d env.TelemetryConfigFilename)).2 = true →
      (env.globalPath env.TelemetryConfigFilename).2 = none →
      osIsNotExist (env.load (env.globalPath env.TelemetryConfigFilename).1).2 = true →
      (ReadTelemetryConfigOrDefault env w (some d) genesisID).1
        = ({ createTelemetryConfig env with ChainID := chainIDFor env genesisID }, none) ∧
      (ReadTelemetryConfigOrDefault env w (some d) genesisID).1.1.Enable = false ∧
      (ReadTelemetryConfigOrDefault env w (some d) genesisID).1.1.SessionGUID
        = env.freshSessionGUID) ∧
    (∀ p e,
      resolveFailed env
          (newEffects w (ReadTelemetryConfigOrDefault env w (some d) genesisID).2) = false →
      lastLoad (newEffects w (ReadTelemetryConfigOrDefault env w (some d) genesisID).2)
          = some p →
      (env.load p).2 = some e → e.notExist = false →
      (ReadTelemetryConfigOrDefault env w (some d) genesisID).1
        = (createTelemetryConfig env, some e)) ∧
    (resolveFailed env
        (newEffects w (ReadTelemetryConfigOrDefault env w (some d) genesisID).2) = true →
      ∃ e, (env.globalPath env.TelemetryConfigFilename).2 = some e ∧
        (ReadTelemetryConfigOrDefault env w (some d) genesisID).1
          = (createTelemetryConfig env, some e)) := by
  obtain ⟨c1, c2, c3⟩ := read_with_dataDir_cases env w d genesisID hd
  cases he : (env.load (env.filepathJoin d env.TelemetryConfigFilename)).2 with
  | none =>
    have hr := c2 he
    simp [hr, newEffects, drop_length_append, lastLoad, resolveFailed, osIsNotExist, he]
    intro p e hp hl
    subst hp
    rw [he] at hl
    cases hl
  | some e1 =>
    cases hne : e1.notExist with
    | false =>
      have hr := c1 e1 he hne
      simp [hr, newEffects, drop_length_append, lastLoad, resolveFailed, osIsNotExist, he, hne]
      intro p e hp hl
      subst hp
      rw [he] at hl
      cases hl
      intro _
      rfl
    | true =>
      have h1 : osIsNotExist (env.load (env.filepathJoin d env.TelemetryConfigFilename)).2
          = true := by simp [osIsNotExist, he, hne]
      obtain ⟨c4, c5⟩ := c3 h1
      cases hg : (env.globalPath env.TelemetryConfigFilename).2 with
      | some eg =>
        have hr := c4 eg hg
        simp [hr, newEffects, drop_length_append, lastLoad, resolveFailed, osIsNotExist, he,
          hne, hg]
      | none =>
        obtain ⟨hw, c6, c7, c8⟩ := c5 hg
        cases h2 : (env.load (env.globalPath env.TelemetryConfigFilename).1).2 with
        | none =>
          have hr := c8 h2
          simp [hr, hw, newEffects, drop_length_append, lastLoad, resolveFailed, osIsNotExist,
            he, hne, hg, h2]
          intro p e hp hl
          subst hp
          rw [h2] at hl
          cases hl
        | some e2 =>
          cases hne2 : e2.notExist with
          | false =>
            have hr := c6 e2 h2 hne2
            simp [hr, hw, newEffects, drop_length_append, lastLoad, resolveFailed,
              osIsNotExist, he, hne, hg, h2, hne2]
            intro p e hp hl
            subst hp
            rw [h2] at hl
            cases hl
            intro _
            rfl
          | true =>
            have h3 : osIsNotExist (env.load (env.globalPath env.TelemetryConfigFilename).1).2
                = true := by simp [osIsNotExist, h2, hne2]
            have hr := c7 h3
            simp [hr, hw, newEffects, drop_length_append, lastLoad, resolveFailed,
              osIsNotExist, he, hne, hg, h2, hne2, createTelemetryConfig]
            intro p e hp hl
            subst hp
            rw [h2] at hl
            cases hl
            exact hne2

/-- C7 (amended), with both files absent: the default config, ChainID set, no error. -/
theorem read_error_nil_iff_witness :
    "/data" ≠ "" ∧
    (ReadTelemetryConfigOrDefault emptyDiskEnv startWorld (some "/data") "testgenesis").1
      = ({ createTelemetryConfig emptyDiskEnv with ChainID := "dev-testgenesis" }, none) :=
  ⟨by decide,
   ((read_error_nil_iff emptyDiskEnv startWorld "/data" "testgenesis" (by decide)).2.1
      rfl rfl rfl).1⟩

/-- C8 (as stated, refuted): with a malformed file in the data directory the
returned config is the plain default, whose ChainID is not `dev-testgenesis`. -/
theorem read_malformed_leaves_chainID_unset :
    (ReadTelemetryConfigOrDefault malformedEnv startWorld (some "/data") "testgenesis").1
      = (createTelemetryConfig malformedEnv, some decodeError) ∧
    (ReadTelemetryConfigOrDefault malformedEnv startWorld (some "/data") "testgenesis").1.1.ChainID
      ≠ "dev-testgenesis" := by
  refine ⟨rfl, ?_⟩
  decide

/-- C8 (amended): for every input and every outcome of the load attempts,
`ReadTelemetryConfigOrDefault` either returns a nil error and a config whose
ChainID is `<channel>-<genesisID>`, with `dev` for an unset channel, or returns a
non-nil error and the default of `createTelemetryConfig` as it is, its ChainID
not computed. -/
theorem read_chainID_computed_iff_no_error (env : Env) (w : World) (dataDir : Option String)
    (genesisID : String) :
    ((ReadTelemetryConfigOrDefault env w dataDir genesisID).1.2 = none ∧
      (ReadTelemetryConfigOrDefault env w dataDir genesisID).1.1.ChainID
        = (if env.Channel = "" then "dev" else env.Channel) ++ "-" ++ genesisID) ∨
    ((ReadTelemetryConfigOrDefault env w dataDir genesisID).1.2 ≠ none ∧
      (ReadTelemetryConfigOrDefault env w dataDir genesisID).1.1
        = createTelemetryConfig env) := by
  unfold ReadTelemetryConfigOrDefault readTail
  cases dataDir with
  | none => simp [chainIDFor]
  | some d =>
    dsimp only
    split_ifs <;> simp_all [chainIDFor, LoadTelemetryConfig, GetConfigFilePath]

/-- A malformed file in the data directory: load, save at the same path, initialize. -/
theorem ensure_malformed_dataDir (env : Env) (w : World) (d genesisID : String) (e : GoError)
    (hd : d ≠ "") (hj : env.filepathJoin d env.TelemetryConfigFilename ≠ "")
    (he : (env.load (env.filepathJoin d env.TelemetryConfigFilename)).2 = some e)
    (hne : e.notExist = false) :
    settledPath env (some d) = some (env.filepathJoin d env.TelemetryConfigFilename) ∧
    (EnsureTelemetryConfigCreated env w (some d) genesisID).2.effects
      = w.effects ++
        [Effect.load (env.filepathJoin d env.TelemetryConfigFilename),
         Effect.save (env.filepathJoin d env.TelemetryConfigFilename)
           { createTelemetryConfig env with
             FilePath := env.filepathJoin d env.TelemetryConfigFilename },
         Effect.init { createTelemetryConfig env with
           FilePath := env.filepathJoin d env.TelemetryConfigFilename,
           ChainID := chainIDFor env genesisID }] := by
  constructor
  · simp [settledPath, osIsNotExist, hd, hj, he, hne]
  · simp [EnsureTelemetryConfigCreated, ensureTail, LoadTelemetryConfig, TelemetryConfig.Save,
      initializeConfig, osIsNotExist, hd, hj, he, hne]

/-- The result and the `Save` calls of the create path, given the settled path. -/
theorem ensure_settled_cases (env : Env) (w : World)
    (dataDir : Option String) (genesisID p : String)
    (hp : settledPath env dataDir = some p) :
    ((env.load p).2 ≠ none →
      (EnsureTelemetryConfigCreated env w dataDir genesisID).1
        = ({ createTelemetryConfig env with
               FilePath := p, ChainID := chainIDFor env genesisID },
           true,
           env.save { createTelemetryConfig env with FilePath := p } p) ∧
      saves (newEffects w (EnsureTelemetryConfigCreated env w dataDir genesisID).2)
        = [(p, { createTelemetryConfig env with FilePath := p })]) ∧
    ((env.load p).2 = none →
      (EnsureTelemetryConfigCreated env w dataDir genesisID).1
        = ({ (env.load p).1 with ChainID := chainIDFor env genesisID }, false, none) ∧
      saves (newEffects w (EnsureTelemetryConfigCreated env w dataDir genesisID).2) = []) := by
  unfold settledPath at hp
  unfold EnsureTelemetryConfigCreated ensureTail
  cases dataDir with
  | none =>
    dsimp only at hp ⊢
    split_ifs at hp ⊢ <;>
      simp_all [LoadTelemetryConfig, GetConfigFilePath, TelemetryConfig.Save, initializeConfig,
        newEffects, drop_length_append, saves]
  | some d =>
    dsimp only at hp ⊢
    split_ifs at hp ⊢ <;>
      simp_all [LoadTelemetryConfig, GetConfigFilePath, TelemetryConfig.Save, initializeConfig,
        newEffects, drop_length_append, saves, osIsNotExist]

/-- C10: once `EnsureTelemetryConfigCreated` has settled on a config path `p`: if
loading from `p` fails for any reason, `created` is true, the default config with
`FilePath = p` is saved to `p` exactly once, and the returned error is exactly the
result of that `Save`; if loading succeeds, `created` is false, `Save` is never
called and the error is nil.  A data-directory file that exists but is malformed
is regenerated at the data-directory path, and the global location is not
consulted: the call loads, saves and initializes, nothing else. -/
theorem ensure_persists_once_on_load_failure (env : Env) (w : World)
    (dataDir : Option String) (genesisID p : String)
    (hp : settledPath env dataDir = some p) :
    ((env.load p).2 ≠ none →
      (EnsureTelemetryConfigCreated env w dataDir genesisID).1
        = ({ createTelemetryConfig env with
               FilePath := p, ChainID := chainIDFor env genesisID },
           true,
           env.save { createTelemetryConfig env with FilePath := p } p) ∧
      saves (newEffects w (EnsureTelemetryConfigCreated env w dataDir genesisID).2)
        = [(p, { createTelemetryConfig env with FilePath := p })]) ∧
    ((env.load p).2 = none →
      (EnsureTelemetryConfigCreated env w dataDir genesisID).1
        = ({ (env.load p).1 with ChainID := chainIDFor env genesisID }, false, none) ∧
      saves (newEffects w (EnsureTelemetryConfigCreated env w dataDir genesisID).2) = []) ∧
    (∀ d e, dataDir = some d → d ≠ "" →
      env.filepathJoin d env.TelemetryConfigFilename ≠ "" →
      (env.load (env.filepathJoin d env.TelemetryConfigFilename)).2 = some e →
      e.notExist = false →
      p = env.filepathJoin d env.TelemetryConfigFilename ∧
      newEffects w (EnsureTelemetryConfigCreated env w dataDir genesisID).2
        = [Effect.load p,
           Effect.save p { createTelemetryConfig env with FilePath := p },
           Effect.init { createTelemetryConfig env with
             FilePath := p, ChainID := chainIDFor env genesisID }] ∧
      resolves (newEffects w (EnsureTelemetryConfigCreated env w dataDir genesisID).2) = 0) := by
  obtain ⟨k1, k2⟩ := ensure_settled_cases env w dataDir genesisID p hp
  refine ⟨k1, k2, ?_⟩
  intro d e hdd hd hj he hne
  subst hdd
  obtain ⟨hs, hw⟩ := ensure_malformed_dataDir env w d genesisID e hd hj he hne
  have hpe : p = env.filepathJoin d env.TelemetryConfigFilename := by
    rw [hs] at hp
    exact (Option.some.inj hp).symm
  subst hpe
  refine ⟨rfl, ?_, ?_⟩
  · simp [newEffects, hw, drop_length_append]
  · simp [newEffects, hw, drop_length_append, resolves]

/-- C10 on a malformed data-directory file and a disk that accepts the write: the
config is created, saved at the data-directory path, and the error is nil. -/
theorem ensure_persists_once_on_load_failure_witness :
    settledPath malformedEnv (some "/data") = some "/data/logging.config" ∧
    (EnsureTelemetryConfigCreated malformedEnv startWorld (some "/data") "testgenesis").1
      = ({ createTelemetryConfig malformedEnv with
             FilePath := "/data/logging.config", ChainID := "dev-testgenesis" },
         true, none) ∧
    saves (newEffects startWorld
        (EnsureTelemetryConfigCreated malformedEnv startWorld (some "/data") "testgenesis").2)
      = [("/data/logging.config",
          { createTelemetryConfig malformedEnv with FilePath := "/data/logging.config" })] :=
  ⟨rfl,
   (ensure_persists_once_on_load_failure malformedEnv startWorld (some "/data") "testgenesis"
      "/data/logging.config" rfl).1 (by decide)⟩

/-- The create path returns a loaded config or a default one, ChainID and FilePath
apart, whatever the data directory and the outcome of each step. -/
theorem ensure_returns_loaded_or_default (env : Env) (w : World) (dataDir : Option String)
    (genesisID : String) :
    (∃ p, (env.load p).2 = none ∧
      (EnsureTelemetryConfigCreated env w dataDir genesisID).1.1
        = { (env.load p).1 with ChainID := chainIDFor env genesisID }) ∨
    (EnsureTelemetryConfigCreated env w dataDir genesisID).1.1 = createTelemetryConfig env ∨
    (∃ p, (EnsureTelemetryConfigCreated env w dataDir genesisID).1.1
      = { createTelemetryConfig env with
          FilePath := p, ChainID := chainIDFor env genesisID }) := by
  cases hs : settledPath env dataDir with
  | some p =>
    obtain ⟨k1, k2⟩ := ensure_settled_cases env w dataDir genesisID p hs
    by_cases hl : (env.load p).2 = none
    · exact Or.inl ⟨p, hl, by rw [(k2 hl).1]⟩
    · exact Or.inr (Or.inr ⟨p, by rw [(k1 hl).1]⟩)
  | none =>
    refine Or.inr (Or.inl ?_)
    unfold settledPath at hs
    unfold EnsureTelemetryConfigCreated ensureTail
    cases dataDir with
    | none =>
      dsimp only at hs ⊢
      split_ifs at hs ⊢ <;> simp_all [LoadTelemetryConfig, GetConfigFilePath]
    | some d =>
      dsimp only at hs ⊢
      split_ifs at hs ⊢ <;> simp_all [LoadTelemetryConfig, GetConfigFilePath, osIsNotExist]

/-- C11 (evaluation at the failing input): no telemetry config file exists, in the
data directory or at the global location, the disk accepts the write, and
`EnsureTelemetryConfig` returns a nil error; the same happens when the
data-directory file exists and fails to load. -/
theorem ensure_missing_file_returns_nil_error :
    osIsNotExist (emptyDiskEnv.load "/data/logging.config").2 = true ∧
    osIsNotExist (emptyDiskEnv.load "/home/algo/.algorand/logging.config").2 = true ∧
    (EnsureTelemetryConfig emptyDiskEnv startWorld (some "/data") "testgenesis").1.2 = none ∧
    (malformedEnv.load "/data/logging.config").2 = some decodeError ∧
    (EnsureTelemetryConfig malformedEnv startWorld (some "/data") "testgenesis").1.2 = none := by
  refine ⟨rfl, rfl, rfl, rfl, rfl⟩

/-- C13: on every path `ReadTelemetryConfigOrDefault` leaves the package-level
`telemetryConfig` as it was, performs no `Save` and no `initializeConfig`: every
effect of the call is a load or a global-path resolution, added after the effects
already there. -/
theorem read_only_resolution_has_no_side_effect (env : Env) (w : World)
    (dataDir : Option String) (genesisID : String) :
    (ReadTelemetryConfigOrDefault env w dataDir genesisID).2.telemetryConfig
      = w.telemetryConfig ∧
    saves (newEffects w (ReadTelemetryConfigOrDefault env w dataDir genesisID).2) = [] ∧
    (∀ e ∈ newEffects w (ReadTelemetryConfigOrDefault env w dataDir genesisID).2,
      (∃ p, e = Effect.load p) ∨ (∃ f, e = Effect.resolve f)) ∧
    (ReadTelemetryConfigOrDefault env w dataDir genesisID).2.effects
      = w.effects ++ newEffects w (ReadTelemetryConfigOrDefault env w dataDir genesisID).2 := by
  unfold ReadTelemetryConfigOrDefault readTail
  cases dataDir with
  | none => simp [newEffects, saves]
  | some d =>
    dsimp only
    split_ifs <;>
      simp [LoadTelemetryConfig, GetConfigFilePath, newEffects, drop_length_append, saves]

/-- C14: whenever `EnsureTelemetryConfigCreated` gets past global-path resolution,
that is whenever it settles on a config path `p`, the returned config is the
loaded config, or the created config with `FilePath = p`, with only its ChainID
replaced, and that ChainID is the channel, or `dev` when the channel is the empty
string, then `-`, then the genesisID. -/
theorem ensure_sets_chainID (env : Env) (w : World) (dataDir : Option String)
    (genesisID p : String) (hp : settledPath env dataDir = some p) :
    (EnsureTelemetryConfigCreated env w dataDir genesisID).1.1.ChainID
      = (if env.Channel = "" then "dev" else env.Channel) ++ "-" ++ genesisID ∧
    ((EnsureTelemetryConfigCreated env w dataDir genesisID).1.1
        = { (env.load p).1 with
            ChainID := (EnsureTelemetryConfigCreated env w dataDir genesisID).1.1.ChainID } ∨
     (EnsureTelemetryConfigCreated env w dataDir genesisID).1.1
        = { createTelemetryConfig env with
            FilePath := p,
            ChainID := (EnsureTelemetryConfigCreated env w dataDir genesisID).1.1.ChainID }) := by
  obtain ⟨k1, k2⟩ := ensure_settled_cases env w dataDir genesisID p hp
  by_cases hl : (env.load p).2 = none
  · rw [(k2 hl).1]
    exact ⟨rfl, Or.inl rfl⟩
  · rw [(k1 hl).1]
    exact ⟨rfl, Or.inr rfl⟩

/-- C14 with the channel unset and genesisID `testgenesis`: ChainID `dev-testgenesis`. -/
theorem ensure_sets_chainID_witness :
    settledPath storedEnv (some "/data") = some "/data/logging.config" ∧
    (EnsureTelemetryConfigCreated storedEnv startWorld (some "/data") "testgenesis").1.1.ChainID
      = "dev-testgenesis" :=
  ⟨rfl,
   (ensure_sets_chainID storedEnv startWorld (some "/data") "testgenesis"
      "/data/logging.config" rfl).1⟩

/-! ## Two runs of the create path -/

/-- What a later run loads after a run whose only `Save` wrote `cfg` to `p`. -/
theorem nextRunEnv_load (env : Env) (es : List Effect) (guid session p path : String)
    (cfg : TelemetryConfig) (hs : saves es = [(p, cfg)]) (hok : env.save cfg p = none) :
    (nextRunEnv env es guid session).load path
      = if p = path then (cfg, none) else env.load path := by
  have hf : ((saves es).filter fun s => decide (env.save s.2 s.1 = none)) = [(p, cfg)] := by
    simp [hs, hok]
  by_cases hpp : p = path <;> simp [nextRunEnv, hf, hpp]

/-- C12 (as stated, refuted): the data directory holds no config file and every
`Save` succeeds.  When the global config path cannot be resolved, both calls
return `created = true` and the two configs have different GUIDs; when a config
file already exists at the global location, the first call returns
`created = false`. -/
theorem ensure_twice_without_creation :
    (EnsureTelemetryConfigCreated noGlobalEnv startWorld (some "/data") "testgenesis").1.2.1
      = true ∧
    (EnsureTelemetryConfigCreated
      (nextRunEnv noGlobalEnv
        (newEffects startWorld
          (EnsureTelemetryConfigCreated noGlobalEnv startWorld (some "/data") "testgenesis").2)
        "guid-second" "session-second")
      (EnsureTelemetryConfigCreated noGlobalEnv startWorld (some "/data") "testgenesis").2
      (some "/data") "testgenesis").1.2.1 = true ∧
    (EnsureTelemetryConfigCreated
      (nextRunEnv noGlobalEnv
        (newEffects startWorld
          (EnsureTelemetryConfigCreated noGlobalEnv startWorld (some "/data") "testgenesis").2)
        "guid-second" "session-second")
      (EnsureTelemetryConfigCreated noGlobalEnv startWorld (some "/data") "testgenesis").2
      (some "/data") "testgenesis").1.1.GUID
      ≠ (EnsureTelemetryConfigCreated noGlobalEnv startWorld (some "/data")
          "testgenesis").1.1.GUID ∧
    osIsNotExist (globalFileEnv.load "/data/logging.config").2 = true ∧
    (EnsureTelemetryConfigCreated globalFileEnv startWorld (some "/data") "testgenesis").1.2.1
      = false := by
  refine ⟨rfl, rfl, ?_, rfl, rfl⟩
  decide

/-- The path a later run settles on, when the earlier run saved at the global path
and the data directory held no file. -/
theorem settledPath_nextRun (env : Env) (es : List Effect) (guid session : String)
    (dataDir : Option String) (cfg : TelemetryConfig)
    (hload : ∀ path, (nextRunEnv env es guid session).load path
      = if (env.globalPath env.TelemetryConfigFilename).1 = path then (cfg, none)
        else env.load path)
    (hdir : ∀ d, dataDir = some d → d ≠ "" →
      osIsNotExist (env.load (env.filepathJoin d env.TelemetryConfigFilename)).2 = true)
    (hglob : (env.globalPath env.TelemetryConfigFilename).2 = none) :
    settledPath (nextRunEnv env es guid session) dataDir
      = some (env.globalPath env.TelemetryConfigFilename).1 := by
  have hfj : (nextRunEnv env es guid session).filepathJoin = env.filepathJoin := rfl
  have hfn : (nextRunEnv env es guid session).TelemetryConfigFilename
      = env.TelemetryConfigFilename := rfl
  have hgp : (nextRunEnv env es guid session).globalPath = env.globalPath := rfl
  unfold settledPath
  rw [hfj, hfn, hgp]
  cases dataDir with
  | none => simp [hglob]
  | some d =>
    by_cases hd : d = ""
    · simp [hd, hglob]
    · dsimp only
      rw [hload]
      by_cases hpp : (env.globalPath env.TelemetryConfigFilename).1
          = env.filepathJoin d env.TelemetryConfigFilename
      · by_cases hj : env.filepathJoin d env.TelemetryConfigFilename = ""
        · simp [hd, hpp, hj, hglob]
        · simp [hd, hpp, hj, osIsNotExist]
      · simp [hd, hpp, hdir d rfl hd, hglob]

/-- C12 (amended): assume every `Save` succeeds, a later `LoadTelemetryConfig`
returns what `Save` last wrote, the data directory holds no config file, the
global config path resolves and no loadable config file is at the global
location.  Then the first call returns `created = true` and writes the new
config once, at the global path; the second call returns `created = false` with
a nil error and writes nothing; both returned configs have the same GUID; and
their ChainIDs differ only if the genesisID arguments differ. -/
theorem ensure_twice_creates_once (env : Env) (w : World) (dataDir : Option String)
    (genesisID1 genesisID2 guid session : String)
    (hsave : ∀ c p, env.save c p = none)
    (hdir : ∀ d, dataDir = some d → d ≠ "" →
      osIsNotExist (env.load (env.filepathJoin d env.TelemetryConfigFilename)).2 = true)
    (hglob : (env.globalPath env.TelemetryConfigFilename).2 = none)
    (hgfile : (env.load (env.globalPath env.TelemetryConfigFilename).1).2 ≠ none) :
    (EnsureTelemetryConfigCreated env w dataDir genesisID1).1.2.1 = true ∧
    saves (newEffects w (EnsureTelemetryConfigCreated env w dataDir genesisID1).2)
      = [((env.globalPath env.TelemetryConfigFilename).1,
          { createTelemetryConfig env with
            FilePath := (env.globalPath env.TelemetryConfigFilename).1 })] ∧
    (secondEnsure env w dataDir genesisID1 genesisID2 guid session).1.2.1 = false ∧
    (secondEnsure env w dataDir genesisID1 genesisID2 guid session).1.2.2 = none ∧
    saves (newEffects (EnsureTelemetryConfigCreated env w dataDir genesisID1).2
      (secondEnsure env w dataDir genesisID1 genesisID2 guid session).2) = [] ∧
    (secondEnsure env w dataDir genesisID1 genesisID2 guid session).1.1.GUID
      = (EnsureTelemetryConfigCreated env w dataDir genesisID1).1.1.GUID ∧
    ((secondEnsure env w dataDir genesisID1 genesisID2 guid session).1.1.ChainID
        ≠ (EnsureTelemetryConfigCreated env w dataDir genesisID1).1.1.ChainID →
      genesisID1 ≠ genesisID2) := by
  have hs1 : settledPath env dataDir = some (env.globalPath env.TelemetryConfigFilename).1 := by
    unfold settledPath
    cases dataDir with
    | none => simp [hglob]
    | some d =>
      by_cases hd : d = ""
      · simp [hd, hglob]
      · simp [hd, hdir d rfl hd, hglob]
  obtain ⟨hr1, hsv1⟩ := (ensure_settled_cases env w dataDir genesisID1 _ hs1).1 hgfile
  have hload : ∀ path,
      (nextRunEnv env
        (newEffects w (EnsureTelemetryConfigCreated env w dataDir genesisID1).2)
        guid session).load path
      = if (env.globalPath env.TelemetryConfigFilename).1 = path then
          ({ createTelemetryConfig env with
              FilePath := (env.globalPath env.TelemetryConfigFilename).1 }, none)
        else env.load path :=
    fun path => nextRunEnv_load env _ guid session _ path _ hsv1 (hsave _ _)
  have hs2 := settledPath_nextRun env
    (newEffects w (EnsureTelemetryConfigCreated env w dataDir genesisID1).2) guid session
    dataDir _ hload hdir hglob
  have hl2 := hload (env.globalPath env.TelemetryConfigFilename).1
  rw [if_pos rfl] at hl2
  obtain ⟨hr2, hsv2⟩ :=
    (ensure_settled_cases
      (nextRunEnv env
        (newEffects w (EnsureTelemetryConfigCreated env w dataDir genesisID1).2) guid session)
      (EnsureTelemetryConfigCreated env w dataDir genesisID1).2 dataDir genesisID2 _ hs2).2
      (by rw [hl2])
  rw [hl2] at hr2
  refine ⟨?_, hsv1, ?_, ?_, hsv2, ?_, ?_⟩
  · rw [hr1]
  · unfold secondEnsure
    rw [hr2]
  · unfold secondEnsure
    rw [hr2]
  · unfold secondEnsure
    rw [hr2, hr1]
  · unfold secondEnsure
    rw [hr2, hr1]
    intro hne hg
    apply hne
    subst hg
    rfl

/-- C12 (amended) on an empty disk: created on the first call, loaded on the
second, same GUID although the second run drew a different fresh one. -/
theorem ensure_twice_creates_once_witness :
    (EnsureTelemetryConfigCreated emptyDiskEnv startWorld (some "/data") "testgenesis").1.2.1
      = true ∧
    (secondEnsure emptyDiskEnv startWorld (some "/data") "testgenesis" "testgenesis"
      "guid-second" "session-second").1.2.1 = false ∧
    (secondEnsure emptyDiskEnv startWorld (some "/data") "testgenesis" "testgenesis"
      "guid-second" "session-second").1.1.GUID = "guid-new" :=
  have t := ensure_twice_creates_once emptyDiskEnv startWorld (some "/data") "testgenesis"
    "testgenesis" "guid-second" "session-second" (fun _ _ => rfl) (fun _ _ _ => rfl) rfl
    (by decide)
  ⟨t.1, t.2.2.1, t.2.2.2.2.2.1.trans rfl⟩

/-! ## Exporter supervision -/

/-- What `EnsureRunning` does when the handle is nil, by outcome of each step. -/
theorem ensureRunning_not_running (te : TelemetryExporter) (env : ExporterEnv)
    (hnil : te.process = none) :
    (∀ e, env.openFile (env.pathJoin te.dataDir "telemetry.yml") = some e →
      te.EnsureRunning env
        = (some e, te, [ExporterEffect.openFile (env.pathJoin te.dataDir "telemetry.yml")])) ∧
    (env.openFile (env.pathJoin te.dataDir "telemetry.yml") = none →
        (te.ensureConfig env (env.pathJoin te.dataDir "telemetry.yml"))
          = (env.write (env.pathJoin te.dataDir "telemetry.yml") te.configText,
             [ExporterEffect.openFile (env.pathJoin te.dataDir "telemetry.yml"),
              ExporterEffect.write (env.pathJoin te.dataDir "telemetry.yml") te.configText]) ∧
        (∀ e, env.write (env.pathJoin te.dataDir "telemetry.yml") te.configText = some e →
          te.EnsureRunning env
            = (some e, te,
               [ExporterEffect.openFile (env.pathJoin te.dataDir "telemetry.yml"),
                ExporterEffect.write (env.pathJoin te.dataDir "telemetry.yml") te.configText])) ∧
        (env.write (env.pathJoin te.dataDir "telemetry.yml") te.configText = none →
          (∀ e,
            env.startProcess te.exporterProcess
                [te.exporterProcess, "-c", env.pathJoin te.dataDir "telemetry.yml",
                 "--path.home", env.pathJoin te.dataDir "telem"]
              = StartResult.failed e →
            te.EnsureRunning env
              = (some e, te,
                 [ExporterEffect.openFile (env.pathJoin te.dataDir "telemetry.yml"),
                  ExporterEffect.write (env.pathJoin te.dataDir "telemetry.yml") te.configText,
                  ExporterEffect.mkdir (env.pathJoin te.dataDir "telem"),
                  ExporterEffect.startProcess te.exporterProcess
                    [te.exporterProcess, "-c", env.pathJoin te.dataDir "telemetry.yml",
                     "--path.home", env.pathJoin te.dataDir "telem"] false])) ∧
          (∀ pid,
            env.startProcess te.exporterProcess
                [te.exporterProcess, "-c", env.pathJoin te.dataDir "telemetry.yml",
                 "--path.home", env.pathJoin te.dataDir "telem"]
              = StartResult.started pid →
            te.EnsureRunning env
              = (none, { te with process := some pid },
                 [ExporterEffect.openFile (env.pathJoin te.dataDir "telemetry.yml"),
                  ExporterEffect.write (env.pathJoin te.dataDir "telemetry.yml") te.configText,
                  ExporterEffect.mkdir (env.pathJoin te.dataDir "telem"),
                  ExporterEffect.startProcess te.exporterProcess
                    [te.exporterProcess, "-c", env.pathJoin te.dataDir "telemetry.yml",
                     "--path.home", env.pathJoin te.dataDir "telem"] false,
                  ExporterEffect.watch pid])))) := by
  have hte : { te with process := none } = te := by
    cases te
    simp_all
  refine ⟨?_, ?_⟩
  · intro e he
    simp [TelemetryExporter.EnsureRunning, TelemetryExporter.isRunning,
      TelemetryExporter.ensureConfig, hnil, he]
  · intro ho
    refine ⟨?_, ?_, ?_⟩
    · simp only [TelemetryExporter.ensureConfig, ho]
    · intro e hw
      simp [TelemetryExporter.EnsureRunning, TelemetryExporter.isRunning,
        TelemetryExporter.ensureConfig, hnil, ho, hw]
    · intro hw
      refine ⟨?_, ?_⟩
      · intro e hsp
        simp [TelemetryExporter.EnsureRunning, TelemetryExporter.isRunning,
          TelemetryExporter.ensureConfig, hnil, ho, hw, hsp, redirectTelemetryOutput, hte]
      · intro pid hsp
        simp [TelemetryExporter.EnsureRunning, TelemetryExporter.isRunning,
          TelemetryExporter.ensureConfig, hnil, ho, hw, hsp, redirectTelemetryOutput]

/-- A running exporter is left alone. -/
theorem ensureRunning_running (te : TelemetryExporter) (env : ExporterEnv)
    (hset : te.process ≠ none) : te.EnsureRunning env = (none, te, []) := by
  simp [TelemetryExporter.EnsureRunning, TelemetryExporter.isRunning, hset]

/-- The outcome of `EnsureRunning` on an exporter that is not running, in four cases. -/
theorem ensureRunning_cases (te : TelemetryExporter) (env : ExporterEnv)
    (hnil : te.process = none) :
    (∃ e, (te.ensureConfig env (env.pathJoin te.dataDir "telemetry.yml")).1 = some e ∧
      (te.EnsureRunning env).1 = some e ∧ (te.EnsureRunning env).2.1 = te ∧
      spawns (te.EnsureRunning env).2.2 = [] ∧
      (configOpens (te.EnsureRunning env).2.2).length = 1) ∨
    (∃ e, (te.ensureConfig env (env.pathJoin te.dataDir "telemetry.yml")).1 = none ∧
      env.startProcess te.exporterProcess
          [te.exporterProcess, "-c", env.pathJoin te.dataDir "telemetry.yml",
           "--path.home", env.pathJoin te.dataDir "telem"] = StartResult.failed e ∧
      (te.EnsureRunning env).1 = some e ∧ (te.EnsureRunning env).2.1 = te ∧
      (spawns (te.EnsureRunning env).2.2).length = 1 ∧
      (configOpens (te.EnsureRunning env).2.2).length = 1) ∨
    (∃ pid, (te.ensureConfig env (env.pathJoin te.dataDir "telemetry.yml")).1 = none ∧
      env.startProcess te.exporterProcess
          [te.exporterProcess, "-c", env.pathJoin te.dataDir "telemetry.yml",
           "--path.home", env.pathJoin te.dataDir "telem"] = StartResult.started pid ∧
      (te.EnsureRunning env).1 = none ∧
      (te.EnsureRunning env).2.1 = { te with process := some pid } ∧
      (spawns (te.EnsureRunning env).2.2).length = 1 ∧
      (configOpens (te.EnsureRunning env).2.2).length = 1) := by
  obtain ⟨c1, c2⟩ := ensureRunning_not_running te env hnil
  cases ho : env.openFile (env.pathJoin te.dataDir "telemetry.yml") with
  | some e =>
    refine Or.inl ⟨e, ?_, ?_⟩
    · simp [TelemetryExporter.ensureConfig, ho]
    · rw [c1 e ho]
      simp [spawns, configOpens]
  | none =>
    obtain ⟨hcfg, c3, c4⟩ := c2 ho
    cases hw : env.write (env.pathJoin te.dataDir "telemetry.yml") te.configText with
    | some e =>
      refine Or.inl ⟨e, ?_, ?_⟩
      · rw [hcfg, hw]
      · rw [c3 e hw]
        simp [spawns, configOpens]
    | none =>
      obtain ⟨c5, c6⟩ := c4 hw
      cases hsp : env.startProcess te.exporterProcess
          [te.exporterProcess, "-c", env.pathJoin te.dataDir "telemetry.yml",
           "--path.home", env.pathJoin te.dataDir "telem"] with
      | failed e =>
        refine Or.inr (Or.inl ⟨e, ?_, rfl, ?_⟩)
        · rw [hcfg, hw]
        · rw [c5 e hsp]
          simp [spawns, configOpens]
      | started pid =>
        refine Or.inr (Or.inr ⟨pid, ?_, rfl, ?_⟩)
        · rw [hcfg, hw]
        · rw [c6 pid hsp]
          simp [spawns, configOpens]

/-- C15 (as stated, refuted): the handle is nil and the config file cannot be opened
for writing, and `EnsureRunning` writes nothing and attempts no spawn; and when the
exporter binary cannot be started, two calls in immediate succession attempt two
spawns. -/
theorem ensure_running_without_spawn :
    sampleExporter.process = none ∧
    (sampleExporter.EnsureRunning readOnlyOS).2.2
      = [ExporterEffect.openFile "/data/telemetry.yml"] ∧
    spawns (sampleExporter.EnsureRunning readOnlyOS).2.2 = [] ∧
    (spawns ((sampleExporter.EnsureRunning noBinaryOS).2.2 ++
      ((sampleExporter.EnsureRunning noBinaryOS).2.1.EnsureRunning noBinaryOS).2.2)).length
      = 2 := by
  refine ⟨rfl, rfl, rfl, rfl⟩

/-- C15 (amended): `EnsureRunning` attempts the config write if and only if the
handle is nil at the time of the call, and attempts a spawn if and only if the
handle is nil and that write succeeded, at most once per call; when the handle is
set it returns nil and performs no config write, no directory creation and no
spawn.  Hence two calls in immediate succession with no exit in between, the first
of which leaves the handle set, perform exactly one spawn; and a call made after
the watcher cleared the handle, on which the write and the start succeed, spawns a
new process. -/
theorem ensure_running_acts_iff_not_running (te : TelemetryExporter) (env : ExporterEnv) :
    (configOpens (te.EnsureRunning env).2.2 ≠ [] ↔ te.process = none) ∧
    (spawns (te.EnsureRunning env).2.2 ≠ [] ↔
      te.process = none ∧
      (te.ensureConfig env (env.pathJoin te.dataDir "telemetry.yml")).1 = none) ∧
    (spawns (te.EnsureRunning env).2.2).length ≤ 1 ∧
    (te.process ≠ none → te.EnsureRunning env = (none, te, [])) ∧
    (te.process = none → (te.EnsureRunning env).2.1.process ≠ none →
      (spawns ((te.EnsureRunning env).2.2 ++
        ((te.EnsureRunning env).2.1.EnsureRunning env).2.2)).length = 1) ∧
    (∀ pid,
      (te.watcherStep.ensureConfig env (env.pathJoin te.dataDir "telemetry.yml")).1 = none →
      env.startProcess te.exporterProcess
          [te.exporterProcess, "-c", env.pathJoin te.dataDir "telemetry.yml",
           "--path.home", env.pathJoin te.dataDir "telem"] = StartResult.started pid →
      (spawns (te.watcherStep.EnsureRunning env).2.2).length = 1 ∧
      (te.watcherStep.EnsureRunning env).2.1.process = some pid) := by
  have hlast : ∀ pid,
      (te.watcherStep.ensureConfig env (env.pathJoin te.dataDir "telemetry.yml")).1 = none →
      env.startProcess te.exporterProcess
          [te.exporterProcess, "-c", env.pathJoin te.dataDir "telemetry.yml",
           "--path.home", env.pathJoin te.dataDir "telem"] = StartResult.started pid →
      (spawns (te.watcherStep.EnsureRunning env).2.2).length = 1 ∧
      (te.watcherStep.EnsureRunning env).2.1.process = some pid := by
    intro pid hc hsp
    rcases ensureRunning_cases te.watcherStep env rfl with
      ⟨e, h1, _⟩ | ⟨e, _, h2, _⟩ | ⟨q, _, h2, _, h4, h5, _⟩
    · rw [show te.watcherStep.dataDir = te.dataDir from rfl, hc] at h1
      cases h1
    · rw [show te.watcherStep.dataDir = te.dataDir from rfl,
        show te.watcherStep.exporterProcess = te.exporterProcess from rfl, hsp] at h2
      cases h2
    · rw [show te.watcherStep.dataDir = te.dataDir from rfl,
        show te.watcherStep.exporterProcess = te.exporterProcess from rfl, hsp] at h2
      cases h2
      exact ⟨h5, by rw [h4]⟩
  have hne : ∀ l : List ExporterEffect, l.length = 1 → l ≠ [] := by
    intro l hl h0
    rw [h0] at hl
    cases hl
  cases hp : te.process with
  | some pid0 =>
    have hr := ensureRunning_running te env (by rw [hp]; exact Option.some_ne_none pid0)
    refine ⟨?_, ?_, ?_, ?_, ?_, hlast⟩
    · simp [hr, configOpens]
    · simp [hr, spawns]
    · simp [hr, spawns]
    · intro _
      exact hr
    · intro h0
      cases h0
  | none =>
    rcases ensureRunning_cases te env hp with
      ⟨e, h1, _, h3, h4, h5⟩ | ⟨e, h1, _, _, h3, h4, h5⟩ | ⟨pid, h1, _, _, h3, h4, h5⟩
    · refine ⟨?_, ?_, ?_, ?_, ?_, hlast⟩
      · simp [hne _ h5]
      · simp [h4, h1]
      · simp [h4]
      · intro h0
        exact absurd rfl h0
      · intro _ h0
        rw [h3, hp] at h0
        exact absurd rfl h0
    · refine ⟨?_, ?_, ?_, ?_, ?_, hlast⟩
      · simp [hne _ h5]
      · simp [hne _ h4, h1]
      · simp [h4]
      · intro h0
        exact absurd rfl h0
      · intro _ h0
        rw [h3, hp] at h0
        exact absurd rfl h0
    · refine ⟨?_, ?_, ?_, ?_, ?_, hlast⟩
      · simp [hne _ h5]
      · simp [hne _ h4, h1]
      · simp [h4]
      · intro h0
        exact absurd rfl h0
      · intro _ _
        have h2 : ((te.EnsureRunning env).2.1.EnsureRunning env).2.2 = [] := by
          rw [ensureRunning_running _ env (by rw [h3]; exact Option.some_ne_none pid)]
        rw [h2, List.append_nil]
        exact h4

/-- C15 (amended) on a healthy system: two calls in succession, one spawn. -/
theorem ensure_running_acts_iff_not_running_witness :
    sampleExporter.process = none ∧
    (sampleExporter.EnsureRunning healthyOS).2.1.process = some 4242 ∧
    (spawns ((sampleExporter.EnsureRunning healthyOS).2.2 ++
      ((sampleExporter.EnsureRunning healthyOS).2.1.EnsureRunning healthyOS).2.2)).length
      = 1 :=
  ⟨rfl, rfl,
   (ensure_running_acts_iff_not_running sampleExporter healthyOS).2.2.2.2.1 rfl (by decide)⟩

/-- C16: when the handle is nil and writing the exporter config file fails, be it
the opening of `telemetry.yml` for writing or the write of the config text,
`EnsureRunning` returns that error, attempts no spawn and the handle stays nil;
when both succeed and the spawn fails it returns the spawn error and the handle
is nil afterwards; it returns nil only when the handle was already set or the
file was opened and written and the spawn succeeded; and after a successful
spawn it returns nil and the handle is the new process. -/
theorem ensure_running_reports_failures (te : TelemetryExporter) (env : ExporterEnv) :
    (∀ e, te.process = none →
      env.openFile (env.pathJoin te.dataDir "telemetry.yml") = some e →
      (te.EnsureRunning env).1 = some e ∧ spawns (te.EnsureRunning env).2.2 = [] ∧
      (te.EnsureRunning env).2.1.process = none) ∧
    (∀ e, te.process = none →
      env.openFile (env.pathJoin te.dataDir "telemetry.yml") = none →
      env.write (env.pathJoin te.dataDir "telemetry.yml") te.configText = some e →
      (te.EnsureRunning env).1 = some e ∧ spawns (te.EnsureRunning env).2.2 = [] ∧
      (te.EnsureRunning env).2.1.process = none ∧
      ExporterEffect.write (env.pathJoin te.dataDir "telemetry.yml") te.configText
        ∈ (te.EnsureRunning env).2.2) ∧
    (∀ e, te.process = none →
      env.openFile (env.pathJoin te.dataDir "telemetry.yml") = none →
      env.write (env.pathJoin te.dataDir "telemetry.yml") te.configText = none →
      env.startProcess te.exporterProcess
          [te.exporterProcess, "-c", env.pathJoin te.dataDir "telemetry.yml",
           "--path.home", env.pathJoin te.dataDir "telem"] = StartResult.failed e →
      (te.EnsureRunning env).1 = some e ∧ (te.EnsureRunning env).2.1.process = none ∧
      (spawns (te.EnsureRunning env).2.2).length = 1) ∧
    ((te.EnsureRunning env).1 = none →
      te.process ≠ none ∨
      ∃ pid, env.openFile (env.pathJoin te.dataDir "telemetry.yml") = none ∧
        env.write (env.pathJoin te.dataDir "telemetry.yml") te.configText = none ∧
        env.startProcess te.exporterProcess
          [te.exporterProcess, "-c", env.pathJoin te.dataDir "telemetry.yml",
           "--path.home", env.pathJoin te.dataDir "telem"] = StartResult.started pid) ∧
    (∀ pid, te.process = none →
      env.openFile (env.pathJoin te.dataDir "telemetry.yml") = none →
      env.write (env.pathJoin te.dataDir "telemetry.yml") te.configText = none →
      env.startProcess te.exporterProcess
          [te.exporterProcess, "-c", env.pathJoin te.dataDir "telemetry.yml",
           "--path.home", env.pathJoin te.dataDir "telem"] = StartResult.started pid →
      (te.EnsureRunning env).1 = none ∧ (te.EnsureRunning env).2.1.process = some pid ∧
      ExporterEffect.write (env.pathJoin te.dataDir "telemetry.yml") te.configText
        ∈ (te.EnsureRunning env).2.2) := by
  refine ⟨?_, ?_, ?_, ?_, ?_⟩
  · intro e hp ho
    rw [(ensureRunning_not_running te env hp).1 e ho]
    exact ⟨rfl, by simp [spawns], hp⟩
  · intro e hp ho hw
    rw [((ensureRunning_not_running te env hp).2 ho).2.1 e hw]
    exact ⟨rfl, by simp [spawns], hp, by simp⟩
  · intro e hp ho hw hsp
    rw [((((ensureRunning_not_running te env hp).2 ho).2.2 hw).1 e hsp)]
    exact ⟨rfl, hp, by simp [spawns]⟩
  · intro hr
    cases hp : te.process with
    | some pid0 => exact Or.inl (Option.some_ne_none pid0)
    | none =>
      obtain ⟨c1, c2⟩ := ensureRunning_not_running te env hp
      cases ho : env.openFile (env.pathJoin te.dataDir "telemetry.yml") with
      | some e =>
        rw [c1 e ho] at hr
        cases hr
      | none =>
        obtain ⟨_, c3, c4⟩ := c2 ho
        cases hw : env.write (env.pathJoin te.dataDir "telemetry.yml") te.configText with
        | some e =>
          rw [c3 e hw] at hr
          cases hr
        | none =>
          obtain ⟨c5, _⟩ := c4 hw
          cases hsp : env.startProcess te.exporterProcess
              [te.exporterProcess, "-c", env.pathJoin te.dataDir "telemetry.yml",
               "--path.home", env.pathJoin te.dataDir "telem"] with
          | failed e =>
            rw [c5 e hsp] at hr
            cases hr
          | started pid => exact Or.inr ⟨pid, rfl, rfl, rfl⟩
  · intro pid hp ho hw hsp
    rw [((((ensureRunning_not_running te env hp).2 ho).2.2 hw).2 pid hsp)]
    exact ⟨rfl, rfl, by simp⟩

/-- C16 when the config file cannot be opened for writing, when its write fails,
and when the exporter binary cannot be started: the error is returned, the handle
is nil afterwards, and in the first two cases no spawn is attempted. -/
theorem ensure_running_reports_failures_witness :
    sampleExporter.process = none ∧
    ((sampleExporter.EnsureRunning readOnlyOS).1 = some writeError ∧
      spawns (sampleExporter.EnsureRunning readOnlyOS).2.2 = [] ∧
      (sampleExporter.EnsureRunning readOnlyOS).2.1.process = none) ∧
    ((sampleExporter.EnsureRunning fullDiskOS).1 = some writeError ∧
      spawns (sampleExporter.EnsureRunning fullDiskOS).2.2 = [] ∧
      (sampleExporter.EnsureRunning fullDiskOS).2.1.process = none) ∧
    ((sampleExporter.EnsureRunning noBinaryOS).1 = some notExistError ∧
      (sampleExporter.EnsureRunning noBinaryOS).2.1.process = none ∧
      (spawns (sampleExporter.EnsureRunning noBinaryOS).2.2).length = 1) :=
  have t := (ensure_running_reports_failures sampleExporter fullDiskOS).2.1 writeError
    rfl rfl rfl
  ⟨rfl,
   (ensure_running_reports_failures sampleExporter readOnlyOS).1 writeError rfl rfl,
   ⟨t.1, t.2.1, t.2.2.1⟩,
   (ensure_running_reports_failures sampleExporter noBinaryOS).2.2.1 notExistError
     rfl rfl rfl rfl⟩

end Logging

namespace V2

open Logging

/-! ## Codec selection -/

/-- An error answer with status 500 is never a bad-request answer. -/
theorem errorJSON_internal_ne_badRequest (err : Option GoError) (body : Body) :
    errorJSON StatusInternalServerError err ≠ Outcome.json StatusBadRequest body := by
  cases err <;> simp [errorJSON, StatusInternalServerError, StatusBadRequest]

/-- The handle chosen for a given format argument. -/
theorem getCodecHandle_fst (toLower : String → String) (formatPtr : Option String) :
    (getCodecHandle toLower formatPtr).1
      = if ∃ f, formatPtr = some f ∧ (toLower f = "msgpack" ∨ toLower f = "msgp") then
          Handle.CodecHandle
        else Handle.JSONHandle := by
  cases formatPtr with
  | none => simp [getCodecHandle]
  | some f =>
    by_cases h1 : toLower f = "json"
    · simp [getCodecHandle, h1]
    · by_cases h2 : toLower f = "msgpack"
      · simp [getCodecHandle, h2]
      · by_cases h3 : toLower f = "msgp"
        · simp [getCodecHandle, h3]
        · simp [getCodecHandle, h1, h2, h3]

/-- C17: for every format argument, nil or any string, `getCodecHandle` returns a
nil error; it returns the msgpack handle exactly when the lower-cased format is
`msgpack` or `msgp` and the JSON handle in every other case; so `GetBlock` never
answers with the bad-request status, and `getPendingTransactions` answers with it
only when the address filter fails to parse. -/
theorem getCodecHandle_never_errors (toLower : String → String) (formatPtr : Option String)
    (v2 : V2Handlers) (round : Nat) (max : Option Nat) (format addrFilter : Option String) :
    (getCodecHandle toLower formatPtr).2 = none ∧
    ((getCodecHandle toLower formatPtr).1 = Handle.CodecHandle ↔
      ∃ f, formatPtr = some f ∧ (toLower f = "msgpack" ∨ toLower f = "msgp")) ∧
    ((getCodecHandle toLower formatPtr).1 = Handle.JSONHandle ↔
      ¬ ∃ f, formatPtr = some f ∧ (toLower f = "msgpack" ∨ toLower f = "msgp")) ∧
    (getCodecHandle toLower none).1 = Handle.JSONHandle ∧
    (∀ body, (v2.GetBlock round format).outcome ≠ Outcome.json StatusBadRequest body) ∧
    (∀ body, (v2.getPendingTransactions max format addrFilter).outcome
        = Outcome.json StatusBadRequest body →
      ∃ f, addrFilter = some f ∧ (v2.UnmarshalChecksumAddress f).2 ≠ none) := by
  have hfst := getCodecHandle_fst toLower formatPtr
  refine ⟨rfl, ?_, ?_, ?_, ?_, ?_⟩
  · rw [hfst]
    split_ifs with h <;> simp [h]
  · rw [hfst]
    split_ifs with h <;> simp [h]
  · simp [getCodecHandle]
  · intro body
    unfold V2Handlers.GetBlock
    have hnil : (getCodecHandle v2.toLower format).2 = none := rfl
    simp only [hnil, ne_eq, not_true_eq_false, if_false]
    split_ifs <;>
      first
        | exact errorJSON_internal_ne_badRequest _ body
        | simp [respond, StatusOK, StatusBadRequest]
  · intro body hb
    unfold V2Handlers.getPendingTransactions at hb
    have hnil : (getCodecHandle v2.toLower format).2 = none := rfl
    simp only [hnil, ne_eq, not_true_eq_false, if_false] at hb
    cases addrFilter with
    | none =>
      simp only [Bool.false_eq_true, if_false] at hb
      split_ifs at hb <;>
        first
          | exact absurd hb (errorJSON_internal_ne_badRequest _ body)
          | simp [respond, StatusOK, StatusBadRequest] at hb
    | some f =>
      refine ⟨f, rfl, ?_⟩
      intro hpe
      simp only [hpe, not_true_eq_false, if_false, Bool.false_eq_true] at hb
      split_ifs at hb <;>
        first
          | exact absurd hb (errorJSON_internal_ne_badRequest _ body)
          | simp [respond, StatusOK, StatusBadRequest] at hb

/-! ## Error answers -/

/-- Whenever the header lookup succeeds and the node is stalled before an
unsupported protocol upgrade, or is shutting down, `WaitForBlock` passes the nil
error of the lookup to `returnError`. -/
theorem waitForBlock_nil_error (v2 : V2Handlers) (round : Nat)
    (hdr : (v2.BlockHdr v2.Latest).2 = none)
    (hcase : ((v2.BlockHdr v2.Latest).1.NextProtocol ≠ "" ∧
        v2.consensusSupported (v2.BlockHdr v2.Latest).1.NextProtocol = false ∧
        (v2.BlockHdr v2.Latest).1.NextProtocolSwitchOn ≤ (round + 1) % 2 ^ 64) ∨
      v2.selectCase = SelectCase.shutdown) :
    (v2.WaitForBlock round).outcome = Outcome.nilErrorPanic := by
  unfold V2Handlers.WaitForBlock
  simp only [hdr, ne_eq, not_true_eq_false, if_false]
  split_ifs with h
  · simp [returnError, errorJSON]
  · rcases hcase with h1 | h2
    · exact absurd h1 h
    · rw [h2]
      simp [returnError, errorJSON]

/-- Whenever both lookups succeed and the subtraction overflows,
`AccountInformation` passes the nil error of the lookup to `returnErrorLogInternal`. -/
theorem accountInformation_nil_error (v2 : V2Handlers) (address : String)
    (ha : (v2.UnmarshalChecksumAddress address).2 = none)
    (hl : (v2.Lookup v2.Latest (v2.UnmarshalChecksumAddress address).1).2 = none)
    (hw : (v2.LookupWithoutRewards v2.Latest (v2.UnmarshalChecksumAddress address).1).2
      = none)
    (ho : (v2.OSubA (v2.Lookup v2.Latest (v2.UnmarshalChecksumAddress address).1).1.MicroAlgos
      (v2.LookupWithoutRewards v2.Latest
        (v2.UnmarshalChecksumAddress address).1).1.MicroAlgos).2 = true) :
    (v2.AccountInformation address).outcome = Outcome.nilErrorPanic := by
  unfold V2Handlers.AccountInformation
  simp [ha, hl, hw, ho, returnErrorLogInternal, errorJSON]

/-- C18 (evaluation at the failing inputs): `WaitForBlock(100)` on a node stalled
before an unsupported protocol upgrade, `WaitForBlock(100)` on a node that is
shutting down, and `AccountInformation` on an account whose pending-rewards
subtraction overflows each call `Error()` on a nil error, the first after logging
the nil error, and end in the run-time panic instead of answering. -/
theorem handlers_pass_nil_error :
    (stalledNode.WaitForBlock 100).outcome = Outcome.nilErrorPanic ∧
    (stalledNode.WaitForBlock 100).logs.map (fun c => c.args) = [[Value.obj "<nil>"]] ∧
    (shuttingDownNode.WaitForBlock 100).outcome = Outcome.nilErrorPanic ∧
    (overdrawnNode.AccountInformation "ACCT").outcome = Outcome.nilErrorPanic ∧
    (healthyNode.WaitForBlock 100).outcome
      = Outcome.json StatusOK (Body.status healthyNode.Status.1) := by
  refine ⟨?_, ?_, ?_, ?_, ?_⟩
  · exact waitForBlock_nil_error stalledNode 100 rfl (Or.inl (by decide))
  · rfl
  · exact waitForBlock_nil_error shuttingDownNode 100 rfl (Or.inr rfl)
  · exact accountInformation_nil_error overdrawnNode "ACCT" rfl rfl rfl rfl
  · rfl

/-! ## Created asset index -/

/-- The loop finds the first entry with the given ID, or none. -/
theorem paysetOffset_spec (id : String) (l : List SignedTxnWithAD) (k : Nat) :
    (paysetOffset id l k = -1 ∧ ∀ s ∈ l, s.Txn.ID ≠ id) ∨
    (∃ i, i < l.length ∧ paysetOffset id l k = ((k + i : Nat) : Int) ∧
      (∃ s, l[i]? = some s ∧ s.Txn.ID = id) ∧
      ∀ j t, j < i → l[j]? = some t → t.Txn.ID ≠ id) := by
  induction l generalizing k with
  | nil => exact Or.inl ⟨rfl, by simp⟩
  | cons a rest ih =>
    by_cases ha : id = a.Txn.ID
    · refine Or.inr ⟨0, by simp, by simp [paysetOffset, ha], ⟨a, by simp, ha.symm⟩, ?_⟩
      intro j t hj
      exact absurd hj (Nat.not_lt_zero j)
    · rcases ih (k + 1) with ⟨h1, h2⟩ | ⟨i, hi, hoff, ⟨s, hs, hsid⟩, hmin⟩
      · refine Or.inl ⟨by simp [paysetOffset, ha, h1], ?_⟩
        intro s hs
        rcases List.mem_cons.mp hs with h | h
        · rw [h]
          exact fun h0 => ha h0.symm
        · exact h2 s h
      · refine Or.inr ⟨i + 1, by simp [hi], ?_, ⟨s, by simpa using hs, hsid⟩, ?_⟩
        · simp only [paysetOffset, ha, if_false, hoff]
          push_cast
          ring
        · intro j t hj hjt
          cases j with
          | zero =>
            simp at hjt
            rw [← hjt]
            exact fun h0 => ha h0.symm
          | succ j =>
            simp at hjt
            exact hmin j t (by omega) hjt

/-- C19: for a counter `txnCounter` (a `uint64`) at least the length of the payset,
`computeAssetIndexInPayset` returns nil if and only if no payset entry has the ID
of `tx`; otherwise it returns `txnCounter - len(payset) + i + 1` for the smallest
index `i` whose entry has that ID; and every value it returns lies between 1 and
`txnCounter`, so it is never the invalid asset index 0. -/
theorem asset_index_in_payset (tx : TxnWithStatus) (txnCounter : Nat)
    (payset : List SignedTxnWithAD) (hc : txnCounter < 2 ^ 64)
    (hlen : payset.length ≤ txnCounter) :
    (computeAssetIndexInPayset tx txnCounter payset = none ↔
      ∀ s ∈ payset, s.Txn.ID ≠ tx.Txn.Txn.ID) ∧
    (∀ i s, payset[i]? = some s → s.Txn.ID = tx.Txn.Txn.ID →
      (∀ j t, j < i → payset[j]? = some t → t.Txn.ID ≠ tx.Txn.Txn.ID) →
      computeAssetIndexInPayset tx txnCounter payset
        = some (txnCounter - payset.length + i + 1)) ∧
    (∀ v, computeAssetIndexInPayset tx txnCounter payset = some v →
      1 ≤ v ∧ v ≤ txnCounter) := by
  rcases paysetOffset_spec tx.Txn.Txn.ID payset 0 with
    ⟨h1, h2⟩ | ⟨i, hi, hoff, ⟨s, hs, hsid⟩, hmin⟩
  · have hnone : computeAssetIndexInPayset tx txnCounter payset = none := by
      simp [computeAssetIndexInPayset, h1]
    refine ⟨?_, ?_, ?_⟩
    · simp [hnone]
      exact h2
    · intro i s hs hsid _
      exact absurd hsid (h2 s (List.getElem?_mem hs))
    · intro v hv
      rw [hnone] at hv
      cases hv
  · have hval : computeAssetIndexInPayset tx txnCounter payset
        = some (txnCounter - payset.length + i + 1) := by
      have h64 : (2 : Nat) ^ 64 = 18446744073709551616 := by norm_num
      simp only [computeAssetIndexInPayset, hoff, Nat.zero_add, h64] at *
      have hnn : ¬ ((i : Int) < 0) := by omega
      simp only [hnn, if_false, Int.toNat_ofNat]
      congr 1
      omega
    refine ⟨?_, ?_, ?_⟩
    · rw [hval]
      constructor
      · intro h0
        cases h0
      · intro h0
        exact absurd hsid (h0 s (List.getElem?_mem hs))
    · intro i2 s2 hs2 hsid2 hmin2
      rw [hval]
      have hle : ¬ i2 < i := fun hlt => hmin i2 s2 hlt hs2 hsid2
      have hge : ¬ i < i2 := fun hlt => hmin2 i s hlt hs hsid
      have heq : i2 = i := by omega
      rw [heq]
    · intro v hv
      rw [hval] at hv
      cases hv
      omega

/-- C19 on a payset of three with the transaction at position 1 and a counter of
10: the created asset index is 9. -/
theorem asset_index_in_payset_witness :
    (10 : Nat) < 2 ^ 64 ∧ samplePayset.length ≤ 10 ∧
    computeAssetIndexInPayset sampleTx 10 samplePayset = some 9 :=
  ⟨by norm_num, by decide,
   (asset_index_in_payset sampleTx 10 samplePayset (by norm_num) (by decide)).2.1 1
     { Txn := { ID := "TX-B", content := "create asset" }, Sig := "s2", ApplyData := "" }
     rfl rfl (by
       intro j t hj hjt
       have hj0 : j = 0 := by omega
       subst hj0
       cases hjt
       decide)⟩

/-! ## Pending transactions -/

/-- The loop gathers, after what it already holds, the encodings of the matching
transactions it still has room for. -/
theorem pendingLoop_spec (v2 : V2Handlers) (handle : Handle) (max : Option Nat)
    (addrPtr : Option Address) (txns : List SignedTxn) (acc : List String)
    (henc : ∀ t ∈ txns, (v2.codecEncodeTxn handle t).2 = none) :
    v2.pendingLoop handle max addrPtr txns acc
      = (acc ++ ((match max with
          | some m => (txns.filter (v2.matchesFilter addrPtr)).take (m - acc.length)
          | none => txns.filter (v2.matchesFilter addrPtr)).map
            fun t => (v2.codecEncodeTxn handle t).1), none) := by
  induction txns generalizing acc with
  | nil => cases max <;> simp [V2Handlers.pendingLoop]
  | cons t rest ih =>
    have hrest : ∀ u ∈ rest, (v2.codecEncodeTxn handle u).2 = none :=
      fun u hu => henc u (List.mem_cons_of_mem t hu)
    have ht : (v2.codecEncodeTxn handle t).2 = none := henc t (List.mem_cons_self t rest)
    have hencode : encode (v2.codecEncodeTxn handle t) = ((v2.codecEncodeTxn handle t).1, none) := by
      simp [encode, ht]
    cases max with
    | none =>
      cases addrPtr with
      | none =>
        simp [V2Handlers.pendingLoop, V2Handlers.matchesFilter, hencode, ih _ hrest]
      | some addr =>
        by_cases hm : v2.MatchAddress t.Txn addr = true
        · simp [V2Handlers.pendingLoop, V2Handlers.matchesFilter, hencode, ih _ hrest, hm]
        · simp [V2Handlers.pendingLoop, V2Handlers.matchesFilter, ih _ hrest, hm]
    | some m =>
      by_cases hfull : acc.length ≥ m
      · have hz : m - acc.length = 0 := by omega
        simp [V2Handlers.pendingLoop, hfull, hz]
      · have hs : m - acc.length = (m - (acc.length + 1)) + 1 := by omega
        cases addrPtr with
        | none =>
          simp [V2Handlers.pendingLoop, V2Handlers.matchesFilter, hencode, ih _ hrest, hfull]
          rw [hs]
          simp
        | some addr =>
          by_cases hm : v2.MatchAddress t.Txn addr = true
          · simp [V2Handlers.pendingLoop, V2Handlers.matchesFilter, hencode, ih _ hrest, hm,
              hfull]
            rw [hs]
            simp
          · simp [V2Handlers.pendingLoop, V2Handlers.matchesFilter, ih _ hrest, hm, hfull]

/-- C20: when the address filter, if given, parses, the pool returns the list
`txns`, and no encoding fails, `getPendingTransactions` answers 200 with
`TopTransactions` equal to the encodings, in pool order, of the first
`min(max, m)` transactions that match the filter (`m` being the number of matching
transactions; all `m` when `max` is absent, none when `max` is 0), and with
`TotalTransactions` equal to `len(txns)`, whatever the filter and `max`. -/
theorem pending_transactions_response (v2 : V2Handlers) (max : Option Nat)
    (format addrFilter : Option String)
    (haddr : ∀ f, addrFilter = some f → (v2.UnmarshalChecksumAddress f).2 = none)
    (hpool : v2.GetPendingTxnsFromPool.2 = none)
    (henc : ∀ t ∈ v2.GetPendingTxnsFromPool.1,
      (v2.codecEncodeTxn (getCodecHandle v2.toLower format).1 t).2 = none) :
    (v2.getPendingTransactions max format addrFilter).outcome
      = Outcome.json StatusOK
          (Body.pending
            ((takeMax max
              (v2.GetPendingTxnsFromPool.1.filter
                (v2.matchesFilter
                  (addrFilter.map fun f => (v2.UnmarshalChecksumAddress f).1)))).map
              fun t => (v2.codecEncodeTxn (getCodecHandle v2.toLower format).1 t).1)
            v2.GetPendingTxnsFromPool.1.length) ∧
    (max = some 0 →
      (v2.getPendingTransactions max format addrFilter).outcome
        = Outcome.json StatusOK (Body.pending [] v2.GetPendingTxnsFromPool.1.length)) := by
  have hnil : (getCodecHandle v2.toLower format).2 = none := rfl
  have htake : ∀ l : List SignedTxn,
      (match max with
        | some m => l.take (m - ([] : List String).length)
        | none => l) = takeMax max l := by
    intro l
    cases max with
    | none => rfl
    | some m =>
      simp only [takeMax, List.length_nil, Nat.sub_zero]
      rw [List.take_eq_take]
      simp
  have hloop := fun addrPtr =>
    pendingLoop_spec v2 (getCodecHandle v2.toLower format).1 max addrPtr
      v2.GetPendingTxnsFromPool.1 [] henc
  have hmain : (v2.getPendingTransactions max format addrFilter).outcome
      = Outcome.json StatusOK
          (Body.pending
            ((takeMax max
              (v2.GetPendingTxnsFromPool.1.filter
                (v2.matchesFilter
                  (addrFilter.map fun f => (v2.UnmarshalChecksumAddress f).1)))).map
              fun t => (v2.codecEncodeTxn (getCodecHandle v2.toLower format).1 t).1)
            v2.GetPendingTxnsFromPool.1.length) := by
    unfold V2Handlers.getPendingTransactions
    cases addrFilter with
    | none =>
      simp only [hpool, hnil, hloop, ne_eq, not_true_eq_false, if_false,
        Bool.false_eq_true, List.nil_append, Option.map_none']
      rw [htake]
      rfl
    | some f =>
      simp only [haddr f rfl, hpool, hnil, hloop, ne_eq, not_true_eq_false, if_false,
        Bool.false_eq_true, List.nil_append, Option.map_some']
      rw [htake]
      rfl
  refine ⟨hmain, ?_⟩
  intro h0
  rw [hmain, h0]
  simp [takeMax]

/-- C20 on a pool of three with a filter two of them match and `max = 1`: one
encoding is returned and the total is 3. -/
theorem pending_transactions_response_witness :
    (healthyNode.getPendingTransactions (some 1) none (some "alice")).outcome
      = Outcome.json StatusOK (Body.pending ["TX-A"] 3) ∧
    (healthyNode.getPendingTransactions none none (some "alice")).outcome
      = Outcome.json StatusOK (Body.pending ["TX-A", "TX-C"] 3) :=
  ⟨(pending_transactions_response healthyNode (some 1) none (some "alice")
      (fun _ _ => rfl) rfl (fun _ _ => rfl)).1.trans rfl,
   (pending_transactions_response healthyNode none none (some "alice")
      (fun _ _ => rfl) rfl (fun _ _ => rfl)).1.trans rfl⟩

end V2
